import Mathlib

/-!
# Verification of the cascaded quadrotor controller (`src/QuadControl.cpp`)

A shallow embedding of `QuadControl` and the properties of its control stages.

Modelling conventions.

* A C++ `float` is modelled as a rational number: every finite float is a rational, and the
  arithmetic of the program is taken exactly (rounding, infinities and NaN are outside the model).
  A division by zero, which gives the program an infinity or a NaN, is outside the model as well:
  there the quotient is Lean's `x / 0 = 0`, and a statement says what the exact arithmetic
  computes for nonzero divisors. Where a statement is about the value a stage returns at a
  singular attitude, the stage has a second embedding that returns `none` when the program's
  result is not a vector of finite numbers (`RollPitchControlChecked`).
* The class `QuadControl` (with the members it inherits from `BaseController`) is one record;
  member functions that write a member return the updated record with their result.
* `Common.h`, `V3F.h`, `Mat3x3F.h`, `Quaternion.h`, `Trajectory.h` and `BaseController.h` are not
  among the sources. The constants `F_PI` and `CONST_GRAVITY`, and the value of the call
  `sqrtf(2.f)`, are parameters of the record; the small vector types and the macro `CONSTRAIN`
  are modelled from the specification and say so.
-/

namespace FCND

/-! ## Data model -/

/-- Modelled from the spec: the macro `CONSTRAIN(a, low, high)` of `Common.h`, which clamps `a`
to `[low, high]`. It is written as the nested maximum and minimum; for `low ≤ high` every
reading of "clamp" gives the same value (see `CONSTRAIN_eq_ite`). -/
def CONSTRAIN (a low high : ℚ) : ℚ := max low (min a high)

/-- Modelled from the spec: the three-component float vector `V3F` of `V3F.h`. -/
@[ext]
structure V3F where
  x : ℚ
  y : ℚ
  z : ℚ
deriving DecidableEq

namespace V3F

/-- Modelled from the spec: the constructor `V3F(float v)`, used by the assignment
`pqrCmd = 0.0`; all three components take the value. -/
def ofFloat (v : ℚ) : V3F := ⟨v, v, v⟩

/-- Modelled from the spec: `V3F::operator+`, component-wise. -/
def add (a b : V3F) : V3F := ⟨a.x + b.x, a.y + b.y, a.z + b.z⟩

/-- Modelled from the spec: `V3F::operator-`, component-wise. -/
def sub (a b : V3F) : V3F := ⟨a.x - b.x, a.y - b.y, a.z - b.z⟩

/-- Modelled from the spec: `V3F::operator*(V3F)`, the element-wise product. -/
def mul (a b : V3F) : V3F := ⟨a.x * b.x, a.y * b.y, a.z * b.z⟩

/-- Modelled from the spec: the product of a vector and a float, in either order. -/
def scale (k : ℚ) (a : V3F) : V3F := ⟨k * a.x, k * a.y, k * a.z⟩

/-- Modelled from the spec: `V3F::constrain(low, high)`, which clamps every component. -/
def constrain (a : V3F) (low high : ℚ) : V3F :=
  ⟨CONSTRAIN a.x low high, CONSTRAIN a.y low high, CONSTRAIN a.z low high⟩

instance : Add V3F := ⟨add⟩
instance : Sub V3F := ⟨sub⟩
instance : Mul V3F := ⟨mul⟩
instance : HMul ℚ V3F V3F := ⟨scale⟩
instance : HMul V3F ℚ V3F := ⟨fun a k => scale k a⟩

end V3F

/-- Modelled from the spec: the 3x3 float matrix `Mat3x3F` of `Math/Mat3x3F.h`, built from a
row-major array `v[9]`. -/
structure Mat3x3F where
  v : Fin 9 → ℚ

namespace Mat3x3F

/-- Modelled from the spec: the accessor `R(i, j)`, entry `v[3*i + j]`. -/
def get (m : Mat3x3F) (i j : Fin 3) : ℚ := m.v ⟨3 * i.val + j.val, by omega⟩

/-- Modelled from the spec: the product of a matrix and a vector. -/
def mulVec (m : Mat3x3F) (a : V3F) : V3F :=
  ⟨m.get 0 0 * a.x + m.get 0 1 * a.y + m.get 0 2 * a.z,
   m.get 1 0 * a.x + m.get 1 1 * a.y + m.get 1 2 * a.z,
   m.get 2 0 * a.x + m.get 2 1 * a.y + m.get 2 2 * a.z⟩

instance : HMul Mat3x3F V3F V3F := ⟨mulVec⟩

end Mat3x3F

/-- Modelled from the spec: the attitude `Quaternion<float>`, seen through the two accessors the
controller calls: the rotation matrix from body to world frame and the scalar heading. -/
structure Quaternion where
  RotationMatrix_IwrtB : Mat3x3F
  Yaw : ℚ

/-- Modelled from the spec: the point of the reference trajectory to track. `RunControl` reads
`position`, `velocity`, `accel` and `attitude`. -/
structure TrajectoryPoint where
  time : ℚ
  position : V3F
  velocity : V3F
  accel : V3F
  attitude : Quaternion
  omega : V3F

/-- The command handed to the motors: `desiredThrustsN[4]`. -/
structure VehicleCommand where
  desiredThrustsN : Fin 4 → ℚ

/-- The controller object: the gains and limits loaded by `Init`, the vehicle parameters and the
estimated state held by `BaseController`, the integral accumulator, and the constants of
`Common.h`. -/
structure QuadControl where
  kpPosXY : ℚ
  kpPosZ : ℚ
  KiPosZ : ℚ
  kpVelXY : ℚ
  kpVelZ : ℚ
  kpBank : ℚ
  kpYaw : ℚ
  kpPQR : V3F
  maxDescentRate : ℚ
  maxAscentRate : ℚ
  maxSpeedXY : ℚ
  maxAccelXY : ℚ
  maxTiltAngle : ℚ
  minMotorThrust : ℚ
  maxMotorThrust : ℚ
  mass : ℚ
  L : ℚ
  kappa : ℚ
  Ixx : ℚ
  Iyy : ℚ
  Izz : ℚ
  estPos : V3F
  estVel : V3F
  estOmega : V3F
  estAtt : Quaternion
  curTrajPoint : TrajectoryPoint
  cmd : VehicleCommand
  integratedAltitudeError : ℚ
  /-- The constant `F_PI` of `Common.h`. -/
  F_PI : ℚ
  /-- The constant `CONST_GRAVITY` of `Common.h`. -/
  CONST_GRAVITY : ℚ
  /-- The value of the call `sqrtf(2.f)`. -/
  sqrtf2 : ℚ

/-! ## Library functions -/

/-- The integer part of a rational, rounding toward zero. -/
def truncQ (q : ℚ) : ℤ := if 0 ≤ q then ⌊q⌋ else ⌈q⌉

/-- The C library function `fmodf(x, y)`: `x - n * y` for `n` the quotient `x / y` rounded
toward zero, so the result has the sign of `x`. -/
def fmodf (x y : ℚ) : ℚ := x - (truncQ (x / y) : ℚ) * y

/-! ## Motor mixing -/

namespace QuadControl

/-- The four motor thrusts before clamping (`f1`..`f4` of `GenerateMotorCommands`). -/
def motorThrustsRaw (c : QuadControl) (collThrustCmd : ℚ) (momentCmd : V3F) : Fin 4 → ℚ :=
  let l := c.L / c.sqrtf2
  let pBar := momentCmd.x / l
  let qBar := momentCmd.y / l
  let rBar := -momentCmd.z / c.kappa
  let cBar := collThrustCmd
  let f1 := (pBar + qBar + rBar + cBar) / 4
  let f2 := (-pBar + qBar - rBar + cBar) / 4
  let f3 := (pBar - qBar - rBar + cBar) / 4
  let f4 := (-pBar - qBar + rBar + cBar) / 4
  ![f1, f2, f3, f4]

/-- `QuadControl::GenerateMotorCommands`: writes the four clamped thrusts into the member `cmd`
and returns it; the second component is the controller after the write. -/
def GenerateMotorCommands (c : QuadControl) (collThrustCmd : ℚ) (momentCmd : V3F) :
    VehicleCommand × QuadControl :=
  let f := c.motorThrustsRaw collThrustCmd momentCmd
  let cmd : VehicleCommand :=
    { c.cmd with desiredThrustsN :=
        ![CONSTRAIN (f 0) c.minMotorThrust c.maxMotorThrust,
          CONSTRAIN (f 1) c.minMotorThrust c.maxMotorThrust,
          CONSTRAIN (f 2) c.minMotorThrust c.maxMotorThrust,
          CONSTRAIN (f 3) c.minMotorThrust c.maxMotorThrust] }
  (cmd, { c with cmd := cmd })

/-! ## Body-rate controller -/

/-- `QuadControl::BodyRateControl`: the moment command for a desired and a current body rate. -/
def BodyRateControl (c : QuadControl) (pqrCmd pqr : V3F) : V3F :=
  let momentsOfInertia : V3F := ⟨c.Ixx, c.Iyy, c.Izz⟩
  let pqr_err := pqrCmd - pqr
  momentsOfInertia * c.kpPQR * pqr_err

/-! ## Roll/pitch controller -/

/-- The places where `RollPitchControl` divides, in the order of the source text:
`collThrustCmd / mass`, `accelCmd.x / -cAccel`, `accelCmd.y / -cAccel` and `1 / r33`. -/
inductive DivSite where
  | thrustByMass
  | accelXByCAccel
  | accelYByCAccel
  | oneByR33
deriving DecidableEq

/-- `QuadControl::RollPitchControl`, returning with the rate command the list of divisions
the call carries out, in order. The arithmetic is exact with the total division: for a positive
thrust command and `r33 = 0`, where the program's `1 / r33` is infinite, the value is the one of
the convention `1 / 0 = 0` and says nothing about the program; `RollPitchControlChecked`
represents that case. -/
def RollPitchControlTraced (c : QuadControl) (accelCmd : V3F) (attitude : Quaternion)
    (collThrustCmd : ℚ) : V3F × List DivSite :=
  let R := attitude.RotationMatrix_IwrtB
  let r11 := R.get 0 0
  let r12 := R.get 0 1
  let r13 := R.get 0 2
  let r21 := R.get 1 0
  let r22 := R.get 1 1
  let r23 := R.get 1 2
  let r33 := R.get 2 2
  let rMulMatrix : Mat3x3F := ⟨![r21, -r11, 0, r22, -r12, 0, 0, 0, 0]⟩
  let cAccel := collThrustCmd / c.mass
  if collThrustCmd > 0 then
    let bActual : V3F := ⟨r13, r23, 0⟩
    let bXCommanded := accelCmd.x / -cAccel
    let bYCommanded := accelCmd.y / -cAccel
    let bCommanded := (V3F.mk bXCommanded bYCommanded 0).constrain (-c.maxTiltAngle) c.maxTiltAngle
    let bError := bCommanded - bActual
    let bCommandedDot := c.kpBank * bError
    ((1 / r33) * (rMulMatrix * bCommandedDot),
      [DivSite.thrustByMass, DivSite.accelXByCAccel, DivSite.accelYByCAccel, DivSite.oneByR33])
  else
    (V3F.ofFloat 0, [DivSite.thrustByMass])

/-- `QuadControl::RollPitchControl`: the desired roll and pitch rates. -/
def RollPitchControl (c : QuadControl) (accelCmd : V3F) (attitude : Quaternion)
    (collThrustCmd : ℚ) : V3F :=
  (c.RollPitchControlTraced accelCmd attitude collThrustCmd).1

/-- `QuadControl::RollPitchControl` with the singular attitude represented. On the branch of a
positive thrust command the last statement multiplies by `1 / r33`; for `r33 = 0` the program's
factor is infinite and its result has infinite or NaN components (the third is `inf * 0`), and
the result here is `none`. In every other case the result is `some` vector of finite numbers:
the divisions by the collective acceleration have a finite quotient for every finite input, at
`mass = 0` too, where the program divides by an infinity and gets the zero the total division
gives. The second component lists the divisions carried out, in order. -/
def RollPitchControlChecked (c : QuadControl) (accelCmd : V3F) (attitude : Quaternion)
    (collThrustCmd : ℚ) : Option V3F × List DivSite :=
  let R := attitude.RotationMatrix_IwrtB
  let r11 := R.get 0 0
  let r12 := R.get 0 1
  let r13 := R.get 0 2
  let r21 := R.get 1 0
  let r22 := R.get 1 1
  let r23 := R.get 1 2
  let r33 := R.get 2 2
  let rMulMatrix : Mat3x3F := ⟨![r21, -r11, 0, r22, -r12, 0, 0, 0, 0]⟩
  let cAccel := collThrustCmd / c.mass
  if collThrustCmd > 0 then
    let bActual : V3F := ⟨r13, r23, 0⟩
    let bXCommanded := accelCmd.x / -cAccel
    let bYCommanded := accelCmd.y / -cAccel
    let bCommanded := (V3F.mk bXCommanded bYCommanded 0).constrain (-c.maxTiltAngle) c.maxTiltAngle
    let bError := bCommanded - bActual
    let bCommandedDot := c.kpBank * bError
    (if r33 = 0 then none else some ((1 / r33) * (rMulMatrix * bCommandedDot)),
      [DivSite.thrustByMass, DivSite.accelXByCAccel, DivSite.accelYByCAccel, DivSite.oneByR33])
  else
    (some (V3F.ofFloat 0), [DivSite.thrustByMass])

/-! ## Altitude controller -/

/-- The accumulator `integratedAltitudeError` after a call of `AltitudeControl`. -/
def altitudeAccumulator (c : QuadControl) (posZCmd posZ dt : ℚ) : ℚ :=
  c.integratedAltitudeError + (posZCmd - posZ) * dt

/-- The thrust of `AltitudeControl` before the final clamp (`mass * cAccel`). -/
def altitudeThrustRaw (c : QuadControl) (posZCmd velZCmd posZ velZ : ℚ) (attitude : Quaternion)
    (accelZCmd dt : ℚ) : ℚ :=
  let R := attitude.RotationMatrix_IwrtB
  let posZError := posZCmd - posZ
  let proportionalTerm := c.kpPosZ * posZError
  let velZCmd := CONSTRAIN velZCmd (-c.maxDescentRate) c.maxAscentRate
  let posZDotError := velZCmd - velZ
  let derivativeTerm := c.kpVelZ * posZDotError
  let integratedAltitudeError := c.integratedAltitudeError + posZError * dt
  let integralTerm := c.KiPosZ * integratedAltitudeError
  let uBarOne := proportionalTerm + derivativeTerm + integralTerm + accelZCmd
  let bZActual := R.get 2 2
  let cAccel := (c.CONST_GRAVITY - uBarOne) / bZActual
  c.mass * cAccel

/-- `QuadControl::AltitudeControl`: the collective thrust command, with the controller after the
update of the accumulator. -/
def AltitudeControl (c : QuadControl) (posZCmd velZCmd posZ velZ : ℚ) (attitude : Quaternion)
    (accelZCmd dt : ℚ) : ℚ × QuadControl :=
  let thrust := c.altitudeThrustRaw posZCmd velZCmd posZ velZ attitude accelZCmd dt
  let thrust := CONSTRAIN thrust (c.minMotorThrust * 4) (c.maxMotorThrust * 4)
  (thrust, { c with integratedAltitudeError := c.altitudeAccumulator posZCmd posZ dt })

/-! ## Lateral position controller -/

/-- `QuadControl::LateralPositionControl`: the desired acceleration in the world frame. -/
def LateralPositionControl (c : QuadControl) (posCmd velCmd pos vel accelCmdFF : V3F) : V3F :=
  let accelCmdFF : V3F := { accelCmdFF with z := 0 }
  let velCmd : V3F := { velCmd with z := 0 }
  let posCmd : V3F := { posCmd with z := pos.z }
  let accelCmd := accelCmdFF
  let posError := posCmd - pos
  let proportionalTerm := posError * c.kpPosXY
  let velCmd := velCmd.constrain (-c.maxSpeedXY) c.maxSpeedXY
  let velDotError := velCmd - vel
  let derivativeTerm := c.kpVelXY * velDotError
  let accelCmd := accelCmd + (proportionalTerm + derivativeTerm)
  accelCmd.constrain (-c.maxAccelXY) c.maxAccelXY

/-! ## Yaw controller -/

/-- The desired yaw after normalisation (`yawCmd = fmodf(yawCmd, 2. * F_PI)`). -/
def yawCmdNormalised (c : QuadControl) (yawCmd : ℚ) : ℚ := fmodf yawCmd (2 * c.F_PI)

/-- The yaw error `posError` at the point where `YawControl` multiplies it by `kpYaw`. -/
def yawError (c : QuadControl) (yawCmd yaw : ℚ) : ℚ :=
  let yawCmd := c.yawCmdNormalised yawCmd
  let posError := yawCmd - yaw
  if posError > c.F_PI then posError - 2 * c.F_PI
  else if posError < -c.F_PI then posError + 2 * c.F_PI
  else posError

/-- `QuadControl::YawControl`: the desired yaw rate. -/
def YawControl (c : QuadControl) (yawCmd yaw : ℚ) : ℚ :=
  let posError := c.yawError yawCmd yaw
  let proportionalTerm := c.kpYaw * posError
  proportionalTerm

/-! ## Orchestrator -/

/-- The collective thrust of a tick after the margin clamp of `RunControl`, with the controller
after `AltitudeControl`. -/
def runThrust (c : QuadControl) (pt : TrajectoryPoint) (dt : ℚ) : ℚ × QuadControl :=
  let c := { c with curTrajPoint := pt }
  let r := c.AltitudeControl c.curTrajPoint.position.z c.curTrajPoint.velocity.z c.estPos.z
    c.estVel.z c.estAtt c.curTrajPoint.accel.z dt
  let collThrustCmd := r.1
  let c := r.2
  let thrustMargin := (1 / 10 : ℚ) * (c.maxMotorThrust - c.minMotorThrust)
  let collThrustCmd := CONSTRAIN collThrustCmd ((c.minMotorThrust + thrustMargin) * 4)
    ((c.maxMotorThrust - thrustMargin) * 4)
  (collThrustCmd, c)

/-- The moment command `desMoment` of a tick of `RunControl`. -/
def runMoment (c : QuadControl) (pt : TrajectoryPoint) (dt : ℚ) : V3F :=
  let r := c.runThrust pt dt
  let collThrustCmd := r.1
  let c := r.2
  let desAcc := c.LateralPositionControl c.curTrajPoint.position c.curTrajPoint.velocity c.estPos
    c.estVel c.curTrajPoint.accel
  let desOmega := c.RollPitchControl desAcc c.estAtt collThrustCmd
  let desOmega : V3F :=
    { desOmega with z := c.YawControl c.curTrajPoint.attitude.Yaw c.estAtt.Yaw }
  c.BodyRateControl desOmega c.estOmega

/-- `QuadControl::RunControl`: one tick of the controller. `GetNextTrajectoryPoint` belongs to
`BaseController` and is a parameter. The result is the motor command with the controller after
the tick. -/
def RunControl (c : QuadControl) (GetNextTrajectoryPoint : ℚ → TrajectoryPoint)
    (dt simTime : ℚ) : VehicleCommand × QuadControl :=
  let pt := GetNextTrajectoryPoint simTime
  let r := c.runThrust pt dt
  r.2.GenerateMotorCommands r.1 (c.runMoment pt dt)

end QuadControl

/-! ## A reference configuration

The vehicle of the specification's scenario (`mass = 0.5`, `Ixx = Iyy = Izz = 0.0023`,
`L = 0.17`, `kappa = 0.016`), level and at rest at the origin, with gains and limits of the order
the simulator ships, and the single-precision values of the constants. -/

/-- The identity rotation matrix. -/
def identityMatrix : Mat3x3F := ⟨![1, 0, 0, 0, 1, 0, 0, 0, 1]⟩

/-- The level attitude with heading zero. -/
def levelAttitude : Quaternion := ⟨identityMatrix, 0⟩

/-- The attitude of the unit quaternion `(1/2, 1/2, 1/2, 1/2)`: the rotation that takes the body
axes `x, y, z` to the world axes `y, z, x`, with heading a quarter turn. Its rotation matrix has
`R33 = 0`: the vehicle lies on its side. -/
def sideAttitude : Quaternion := ⟨⟨![0, 0, 1, 1, 0, 0, 0, 1, 0]⟩, 13176795 / 8388608⟩

/-- The origin. -/
def zeroV3F : V3F := ⟨0, 0, 0⟩

/-- The trajectory point at rest at the origin. -/
def restPoint : TrajectoryPoint := ⟨0, zeroV3F, zeroV3F, zeroV3F, levelAttitude, zeroV3F⟩

/-- The reference controller. -/
def scenario : QuadControl where
  kpPosXY := 30
  kpPosZ := 20
  KiPosZ := 40
  kpVelXY := 13
  kpVelZ := 9
  kpBank := 10
  kpYaw := 2
  kpPQR := ⟨70, 70, 15⟩
  maxDescentRate := 2
  maxAscentRate := 5
  maxSpeedXY := 5
  maxAccelXY := 12
  maxTiltAngle := 7 / 10
  minMotorThrust := 1 / 10
  maxMotorThrust := 9 / 2
  mass := 1 / 2
  L := 17 / 100
  kappa := 16 / 1000
  Ixx := 23 / 10000
  Iyy := 23 / 10000
  Izz := 23 / 10000
  estPos := zeroV3F
  estVel := zeroV3F
  estOmega := zeroV3F
  estAtt := levelAttitude
  curTrajPoint := restPoint
  cmd := ⟨![0, 0, 0, 0]⟩
  integratedAltitudeError := 0
  F_PI := 13176795 / 4194304
  CONST_GRAVITY := 981 / 100
  sqrtf2 := 11863283 / 8388608

/-! ## Ticks with zero tracking error -/

/-- The trajectory point equals the estimated state: desired position, velocity, attitude and
body rate are the actual ones and the feed-forward acceleration is zero. -/
structure ZeroTrackingError (c : QuadControl) (pt : TrajectoryPoint) : Prop where
  position_eq : pt.position = c.estPos
  velocity_eq : pt.velocity = c.estVel
  attitude_eq : pt.attitude = c.estAtt
  omega_eq : pt.omega = c.estOmega
  accel_zero : pt.accel = ⟨0, 0, 0⟩

/-- The vehicle is level, its velocity is within the configured speed limits, its heading is
below a full turn, and the acceleration and tilt limits are not negative. -/
structure LevelWithinLimits (c : QuadControl) : Prop where
  level13 : c.estAtt.RotationMatrix_IwrtB.get 0 2 = 0
  level23 : c.estAtt.RotationMatrix_IwrtB.get 1 2 = 0
  level33 : c.estAtt.RotationMatrix_IwrtB.get 2 2 = 1
  velX_ge : -c.maxSpeedXY ≤ c.estVel.x
  velX_le : c.estVel.x ≤ c.maxSpeedXY
  velY_ge : -c.maxSpeedXY ≤ c.estVel.y
  velY_le : c.estVel.y ≤ c.maxSpeedXY
  velZ_ge : -c.maxDescentRate ≤ c.estVel.z
  velZ_le : c.estVel.z ≤ c.maxAscentRate
  yaw_gt : -(2 * c.F_PI) < c.estAtt.Yaw
  yaw_lt : c.estAtt.Yaw < 2 * c.F_PI
  maxAccelXY_nonneg : 0 ≤ c.maxAccelXY
  maxTiltAngle_nonneg : 0 ≤ c.maxTiltAngle

/-- Every gain of the controller is nonzero. -/
def NonzeroGains (c : QuadControl) : Prop :=
  c.kpPosXY ≠ 0 ∧ c.kpPosZ ≠ 0 ∧ c.KiPosZ ≠ 0 ∧ c.kpVelXY ≠ 0 ∧ c.kpVelZ ≠ 0 ∧ c.kpBank ≠ 0
    ∧ c.kpYaw ≠ 0 ∧ c.kpPQR.x ≠ 0 ∧ c.kpPQR.y ≠ 0 ∧ c.kpPQR.z ≠ 0

/-- The reference vehicle rolling at 1 rad/s. -/
def spinning : QuadControl := { scenario with estOmega := ⟨1, 0, 0⟩ }

/-- The trajectory point at rest at the origin with a desired roll rate of 1 rad/s. -/
def spinPoint : TrajectoryPoint := { restPoint with omega := ⟨1, 0, 0⟩ }

/-- The reference vehicle with an altitude error of 0.01 m s accumulated on earlier ticks. -/
def wound : QuadControl := { scenario with integratedAltitudeError := 1 / 100 }

/-! ## Initialisation and repeated calls of the altitude controller -/

/-- Modelled from the spec: the values the parameter system returns for the keys `Init` asks for,
the default standing in for an absent key. The field names are the keys. -/
structure ParamsHandle where
  kpPosXY : ℚ
  kpPosZ : ℚ
  KiPosZ : ℚ
  kpVelXY : ℚ
  kpVelZ : ℚ
  kpBank : ℚ
  kpYaw : ℚ
  kpPQR : V3F
  maxDescentRate : ℚ
  maxAscentRate : ℚ
  maxSpeedXY : ℚ
  maxHorizAccel : ℚ
  maxTiltAngle : ℚ
  minMotorThrust : ℚ
  maxMotorThrust : ℚ

/-- The arguments of one call of `AltitudeControl`. -/
structure AltitudeInput where
  posZCmd : ℚ
  velZCmd : ℚ
  posZ : ℚ
  velZ : ℚ
  attitude : Quaternion
  accelZCmd : ℚ
  dt : ℚ

namespace QuadControl

/-- `QuadControl::Init`, applied to the controller as `BaseController::Init` leaves it: the
accumulator is set to zero and the gains and limits are loaded. -/
def Init (c : QuadControl) (config : ParamsHandle) : QuadControl :=
  { c with
    integratedAltitudeError := 0
    kpPosXY := config.kpPosXY
    kpPosZ := config.kpPosZ
    KiPosZ := config.KiPosZ
    kpVelXY := config.kpVelXY
    kpVelZ := config.kpVelZ
    kpBank := config.kpBank
    kpYaw := config.kpYaw
    kpPQR := config.kpPQR
    maxDescentRate := config.maxDescentRate
    maxAscentRate := config.maxAscentRate
    maxSpeedXY := config.maxSpeedXY
    maxAccelXY := config.maxHorizAccel
    maxTiltAngle := config.maxTiltAngle
    minMotorThrust := config.minMotorThrust
    maxMotorThrust := config.maxMotorThrust }

/-- The integral term `integralTerm` of a call of `AltitudeControl`: `KiPosZ` times the
accumulator after the update of the call. -/
def altitudeIntegralTerm (c : QuadControl) (posZCmd posZ dt : ℚ) : ℚ :=
  c.KiPosZ * (c.integratedAltitudeError + (posZCmd - posZ) * dt)

/-- The controller after `n` successive calls of `AltitudeControl`, call `k` (counted from zero)
receiving the arguments `inputs k`. -/
def altitudeCalls (c : QuadControl) (inputs : ℕ → AltitudeInput) : ℕ → QuadControl
  | 0 => c
  | n + 1 =>
    ((altitudeCalls c inputs n).AltitudeControl (inputs n).posZCmd (inputs n).velZCmd
      (inputs n).posZ (inputs n).velZ (inputs n).attitude (inputs n).accelZCmd (inputs n).dt).2

/-! ## Comparison definitions -/

/-- The control law of `LateralPositionControl` evaluated on the desired velocity as it is given,
without the clamp to `±maxSpeedXY`: the computation the specification compares with. -/
def lateralLawUnclampedVelocity (c : QuadControl) (posCmd velCmd pos vel accelCmdFF : V3F) :
    V3F :=
  let accelCmdFF : V3F := { accelCmdFF with z := 0 }
  let velCmd : V3F := { velCmd with z := 0 }
  let posCmd : V3F := { posCmd with z := pos.z }
  let accelCmd := accelCmdFF + ((posCmd - pos) * c.kpPosXY + c.kpVelXY * (velCmd - vel))
  accelCmd.constrain (-c.maxAccelXY) c.maxAccelXY

/-- The commanded tilt `bCommanded` of `RollPitchControl` after its clamp, on the branch of a
positive thrust command. -/
def bCommanded (c : QuadControl) (accelCmd : V3F) (collThrustCmd : ℚ) : V3F :=
  let cAccel := collThrustCmd / c.mass
  (V3F.mk (accelCmd.x / -cAccel) (accelCmd.y / -cAccel) 0).constrain
    (-c.maxTiltAngle) c.maxTiltAngle

/-- The tick as the specification composes it from the stages: the altitude stage, the margin
clamp, the lateral stage, the attitude stage with the yaw rate filled in, the body-rate stage and
the mixer, every stage on the controller as it is at the start of the tick. -/
def RunControlComposition (c : QuadControl) (pt : TrajectoryPoint) (dt : ℚ) : VehicleCommand :=
  let m := 1 / 10 * (c.maxMotorThrust - c.minMotorThrust)
  let T := CONSTRAIN
    (c.AltitudeControl pt.position.z pt.velocity.z c.estPos.z c.estVel.z c.estAtt pt.accel.z dt).1
    (4 * (c.minMotorThrust + m)) (4 * (c.maxMotorThrust - m))
  let rp := c.RollPitchControl
    (c.LateralPositionControl pt.position pt.velocity c.estPos c.estVel pt.accel) c.estAtt T
  let w : V3F := ⟨rp.x, rp.y, c.YawControl pt.attitude.Yaw c.estAtt.Yaw⟩
  (c.GenerateMotorCommands T (c.BodyRateControl w c.estOmega)).1

end QuadControl

/-- The parameters of the reference configuration. -/
def scenarioParams : ParamsHandle where
  kpPosXY := 30
  kpPosZ := 20
  KiPosZ := 40
  kpVelXY := 13
  kpVelZ := 9
  kpBank := 10
  kpYaw := 2
  kpPQR := ⟨70, 70, 15⟩
  maxDescentRate := 2
  maxAscentRate := 5
  maxSpeedXY := 5
  maxHorizAccel := 12
  maxTiltAngle := 7 / 10
  minMotorThrust := 1 / 10
  maxMotorThrust := 9 / 2

/-- A descent of one metre demanded of the level vehicle on every call, with a tick of 10 ms. -/
def descentInput : AltitudeInput := ⟨1, 0, 0, 0, levelAttitude, 0, 1 / 100⟩

/-! ## Facts about the clamp -/

theorem CONSTRAIN_ge (a low high : ℚ) : low ≤ CONSTRAIN a low high := by
  unfold CONSTRAIN
  exact le_max_left _ _

theorem CONSTRAIN_le (a : ℚ) {low high : ℚ} (h : low ≤ high) : CONSTRAIN a low high ≤ high := by
  unfold CONSTRAIN
  exact max_le h (min_le_right _ _)

theorem CONSTRAIN_of_mem {a low high : ℚ} (h1 : low ≤ a) (h2 : a ≤ high) :
    CONSTRAIN a low high = a := by
  unfold CONSTRAIN
  rw [min_eq_left h2, max_eq_right h1]

/-- For `low ≤ high` the nested maximum and minimum is the clamp by comparison. -/
theorem CONSTRAIN_eq_ite (a : ℚ) {low high : ℚ} (h : low ≤ high) :
    CONSTRAIN a low high = if a < low then low else if high < a then high else a := by
  unfold CONSTRAIN
  split_ifs with h1 h2
  · rw [max_eq_left]
    exact le_trans (min_le_left _ _) h1.le
  · rw [min_eq_right h2.le, max_eq_right h]
  · rw [min_eq_left (not_lt.mp h2), max_eq_right (not_lt.mp h1)]

/-! ## Components of the vector operations -/

namespace V3F

@[simp] theorem add_x (a b : V3F) : (a + b).x = a.x + b.x := rfl
@[simp] theorem add_y (a b : V3F) : (a + b).y = a.y + b.y := rfl
@[simp] theorem add_z (a b : V3F) : (a + b).z = a.z + b.z := rfl
@[simp] theorem sub_x (a b : V3F) : (a - b).x = a.x - b.x := rfl
@[simp] theorem sub_y (a b : V3F) : (a - b).y = a.y - b.y := rfl
@[simp] theorem sub_z (a b : V3F) : (a - b).z = a.z - b.z := rfl
@[simp] theorem mul_x (a b : V3F) : (a * b).x = a.x * b.x := rfl
@[simp] theorem mul_y (a b : V3F) : (a * b).y = a.y * b.y := rfl
@[simp] theorem mul_z (a b : V3F) : (a * b).z = a.z * b.z := rfl
@[simp] theorem smul_x (k : ℚ) (a : V3F) : (k * a).x = k * a.x := rfl
@[simp] theorem smul_y (k : ℚ) (a : V3F) : (k * a).y = k * a.y := rfl
@[simp] theorem smul_z (k : ℚ) (a : V3F) : (k * a).z = k * a.z := rfl
@[simp] theorem mul_float_x (a : V3F) (k : ℚ) : (a * k).x = k * a.x := rfl
@[simp] theorem mul_float_y (a : V3F) (k : ℚ) : (a * k).y = k * a.y := rfl
@[simp] theorem mul_float_z (a : V3F) (k : ℚ) : (a * k).z = k * a.z := rfl
@[simp] theorem constrain_x (a : V3F) (l h : ℚ) : (a.constrain l h).x = CONSTRAIN a.x l h := rfl
@[simp] theorem constrain_y (a : V3F) (l h : ℚ) : (a.constrain l h).y = CONSTRAIN a.y l h := rfl
@[simp] theorem constrain_z (a : V3F) (l h : ℚ) : (a.constrain l h).z = CONSTRAIN a.z l h := rfl
@[simp] theorem ofFloat_x (v : ℚ) : (ofFloat v).x = v := rfl
@[simp] theorem ofFloat_y (v : ℚ) : (ofFloat v).y = v := rfl
@[simp] theorem ofFloat_z (v : ℚ) : (ofFloat v).z = v := rfl

end V3F

namespace Mat3x3F

@[simp] theorem mulVec_x (m : Mat3x3F) (a : V3F) :
    (m * a).x = m.get 0 0 * a.x + m.get 0 1 * a.y + m.get 0 2 * a.z := rfl
@[simp] theorem mulVec_y (m : Mat3x3F) (a : V3F) :
    (m * a).y = m.get 1 0 * a.x + m.get 1 1 * a.y + m.get 1 2 * a.z := rfl
@[simp] theorem mulVec_z (m : Mat3x3F) (a : V3F) :
    (m * a).z = m.get 2 0 * a.x + m.get 2 1 * a.y + m.get 2 2 * a.z := rfl

end Mat3x3F

theorem CONSTRAIN_zero {high : ℚ} (h : 0 ≤ high) : CONSTRAIN 0 (-high) high = 0 :=
  CONSTRAIN_of_mem (by linarith) h

/-! ## Facts about `fmodf` -/

theorem truncQ_of_nonneg {q : ℚ} (h : 0 ≤ q) : 0 ≤ q - truncQ q ∧ q - truncQ q < 1 := by
  unfold truncQ
  rw [if_pos h]
  have h1 := Int.floor_le q
  have h2 := Int.lt_floor_add_one q
  constructor <;> linarith

theorem truncQ_of_neg {q : ℚ} (h : q < 0) : -1 < q - truncQ q ∧ q - truncQ q ≤ 0 := by
  unfold truncQ
  rw [if_neg (not_le.mpr h)]
  have h1 := Int.le_ceil q
  have h2 := Int.ceil_lt_add_one q
  constructor <;> linarith

theorem truncQ_eq_zero {q : ℚ} (h1 : -1 < q) (h2 : q < 1) : truncQ q = 0 := by
  unfold truncQ
  split_ifs with h
  · rw [Int.floor_eq_iff]
    constructor
    · simpa using h
    · simpa using h2
  · rw [Int.ceil_eq_iff]
    constructor
    · simpa using h1
    · simpa using (not_le.mp h).le

theorem fmodf_eq (x : ℚ) {y : ℚ} (hy : y ≠ 0) : fmodf x y = (x / y - truncQ (x / y)) * y := by
  unfold fmodf
  field_simp
  ring

/-- For a positive modulus the result of `fmodf` is smaller than the modulus in magnitude. -/
theorem fmodf_bounds (x : ℚ) {y : ℚ} (hy : 0 < y) : -y < fmodf x y ∧ fmodf x y < y := by
  rw [fmodf_eq x hy.ne.symm]
  rcases le_or_lt 0 (x / y) with h | h
  · obtain ⟨h1, h2⟩ := truncQ_of_nonneg h
    constructor
    · nlinarith
    · nlinarith
  · obtain ⟨h1, h2⟩ := truncQ_of_neg h
    constructor
    · nlinarith
    · nlinarith

/-- The result of `fmodf` has the sign of its first argument: non-negative input. -/
theorem fmodf_nonneg {x y : ℚ} (hx : 0 ≤ x) (hy : 0 < y) : 0 ≤ fmodf x y := by
  rw [fmodf_eq x hy.ne.symm]
  obtain ⟨h1, _⟩ := truncQ_of_nonneg (div_nonneg hx hy.le)
  positivity

/-- The result of `fmodf` has the sign of its first argument: negative input. -/
theorem fmodf_nonpos {x y : ℚ} (hx : x < 0) (hy : 0 < y) : fmodf x y ≤ 0 := by
  rw [fmodf_eq x hy.ne.symm]
  obtain ⟨_, h2⟩ := truncQ_of_neg (div_neg_of_neg_of_pos hx hy)
  nlinarith

/-- An argument smaller than the modulus in magnitude is returned as it is. -/
theorem fmodf_of_abs_lt {x y : ℚ} (h1 : -y < x) (h2 : x < y) : fmodf x y = x := by
  have hy : 0 < y := by linarith
  have hq1 : -1 < x / y := by
    rw [lt_div_iff₀ hy]
    linarith
  have hq2 : x / y < 1 := by
    rw [div_lt_iff₀ hy]
    linarith
  unfold fmodf
  rw [truncQ_eq_zero hq1 hq2]
  simp

namespace QuadControl

/-! ## Frame facts: what each stage leaves unchanged -/

theorem GenerateMotorCommands_fst (c : QuadControl) (T : ℚ) (M : V3F) (i : Fin 4) :
    (c.GenerateMotorCommands T M).1.desiredThrustsN i
      = CONSTRAIN (c.motorThrustsRaw T M i) c.minMotorThrust c.maxMotorThrust := by
  fin_cases i <;> rfl

theorem GenerateMotorCommands_cmd (c : QuadControl) (T : ℚ) (M : V3F) :
    (c.GenerateMotorCommands T M).2.cmd = (c.GenerateMotorCommands T M).1 := rfl

theorem runThrust_minMotorThrust (c : QuadControl) (pt : TrajectoryPoint) (dt : ℚ) :
    (c.runThrust pt dt).2.minMotorThrust = c.minMotorThrust := rfl

theorem runThrust_maxMotorThrust (c : QuadControl) (pt : TrajectoryPoint) (dt : ℚ) :
    (c.runThrust pt dt).2.maxMotorThrust = c.maxMotorThrust := rfl

theorem AltitudeControl_fst (c : QuadControl) (posZCmd velZCmd posZ velZ : ℚ)
    (attitude : Quaternion) (accelZCmd dt : ℚ) :
    (c.AltitudeControl posZCmd velZCmd posZ velZ attitude accelZCmd dt).1
      = CONSTRAIN (c.altitudeThrustRaw posZCmd velZCmd posZ velZ attitude accelZCmd dt)
          (c.minMotorThrust * 4) (c.maxMotorThrust * 4) := rfl

/-- The Z component of the result of `LateralPositionControl`: the feed-forward and the position
error contribute zero, the velocity error contributes the current vertical velocity. -/
theorem LateralPositionControl_z (c : QuadControl) (posCmd velCmd pos vel accelCmdFF : V3F) :
    (c.LateralPositionControl posCmd velCmd pos vel accelCmdFF).z
      = CONSTRAIN
          (0 + (c.kpPosXY * (pos.z - pos.z)
            + c.kpVelXY * (CONSTRAIN 0 (-c.maxSpeedXY) c.maxSpeedXY - vel.z)))
          (-c.maxAccelXY) c.maxAccelXY := rfl

/-- The yaw error in terms of the unwrapped error `e = fmodf(yawCmd, 2 * F_PI) - yaw`. -/
theorem yawError_eq (c : QuadControl) (yawCmd yaw : ℚ) :
    c.yawError yawCmd yaw
      = if fmodf yawCmd (2 * c.F_PI) - yaw > c.F_PI then
          fmodf yawCmd (2 * c.F_PI) - yaw - 2 * c.F_PI
        else if fmodf yawCmd (2 * c.F_PI) - yaw < -c.F_PI then
          fmodf yawCmd (2 * c.F_PI) - yaw + 2 * c.F_PI
        else fmodf yawCmd (2 * c.F_PI) - yaw := rfl

theorem YawControl_eq (c : QuadControl) (yawCmd yaw : ℚ) :
    c.YawControl yawCmd yaw = c.kpYaw * c.yawError yawCmd yaw := rfl

theorem scenario_F_PI : scenario.F_PI = 13176795 / 4194304 := rfl

/-- With zero moment command every motor receives the clamped quarter of the thrust. -/
theorem GenerateMotorCommands_zero_moment (c : QuadControl) (T : ℚ) (i : Fin 4) :
    (c.GenerateMotorCommands T ⟨0, 0, 0⟩).1.desiredThrustsN i
      = CONSTRAIN (T / 4) c.minMotorThrust c.maxMotorThrust := by
  rw [GenerateMotorCommands_fst]
  congr 1
  fin_cases i <;> simp [motorThrustsRaw]

/-- The thrust before the clamp when the vehicle is on its vertical target: position and velocity
as desired, the velocity within the rate limits, no feed-forward, and a level attitude. -/
theorem altitudeThrustRaw_on_target (c : QuadControl) (posZ velZ dt : ℚ) (attitude : Quaternion)
    (h1 : -c.maxDescentRate ≤ velZ) (h2 : velZ ≤ c.maxAscentRate)
    (h33 : attitude.RotationMatrix_IwrtB.get 2 2 = 1) :
    c.altitudeThrustRaw posZ velZ posZ velZ attitude 0 dt
      = c.mass * (c.CONST_GRAVITY - c.KiPosZ * c.integratedAltitudeError) := by
  unfold altitudeThrustRaw
  simp only [h33, CONSTRAIN_of_mem h1 h2]
  ring

/-- The X and Y components of the result of `LateralPositionControl`. -/
theorem LateralPositionControl_xy (c : QuadControl) (posCmd velCmd pos vel accelCmdFF : V3F) :
    (c.LateralPositionControl posCmd velCmd pos vel accelCmdFF).x
        = CONSTRAIN
            (accelCmdFF.x + (c.kpPosXY * (posCmd.x - pos.x)
              + c.kpVelXY * (CONSTRAIN velCmd.x (-c.maxSpeedXY) c.maxSpeedXY - vel.x)))
            (-c.maxAccelXY) c.maxAccelXY
      ∧ (c.LateralPositionControl posCmd velCmd pos vel accelCmdFF).y
        = CONSTRAIN
            (accelCmdFF.y + (c.kpPosXY * (posCmd.y - pos.y)
              + c.kpVelXY * (CONSTRAIN velCmd.y (-c.maxSpeedXY) c.maxSpeedXY - vel.y)))
            (-c.maxAccelXY) c.maxAccelXY := ⟨rfl, rfl⟩

/-- A level vehicle asked for no horizontal acceleration is asked for no roll or pitch rate. -/
theorem RollPitchControl_level (c : QuadControl) (accelCmd : V3F) (attitude : Quaternion)
    (T : ℚ) (hx : accelCmd.x = 0) (hy : accelCmd.y = 0)
    (h13 : attitude.RotationMatrix_IwrtB.get 0 2 = 0)
    (h23 : attitude.RotationMatrix_IwrtB.get 1 2 = 0)
    (_h33 : attitude.RotationMatrix_IwrtB.get 2 2 = 1) (ht : 0 ≤ c.maxTiltAngle) :
    c.RollPitchControl accelCmd attitude T = ⟨0, 0, 0⟩ := by
  unfold RollPitchControl RollPitchControlTraced
  by_cases h : T > 0
  · simp only [h, if_true, hx, hy, h13, h23, zero_div]
    ext <;> simp [CONSTRAIN_zero ht]
  · simp only [h, if_false]
    rfl

/-- The yaw error of a heading against itself is zero, for a heading below a full turn. -/
theorem yawError_self (c : QuadControl) (yaw : ℚ) (h1 : -(2 * c.F_PI) < yaw)
    (h2 : yaw < 2 * c.F_PI) : c.yawError yaw yaw = 0 := by
  have hpi : 0 < c.F_PI := by linarith
  rw [yawError_eq, fmodf_of_abs_lt h1 h2, sub_self, if_neg (by linarith), if_neg (by linarith)]

/-- The moment command of a tick in terms of the stages. -/
theorem runMoment_eq (c : QuadControl) (pt : TrajectoryPoint) (dt : ℚ) :
    c.runMoment pt dt
      = c.BodyRateControl
          ⟨(c.RollPitchControl
              (c.LateralPositionControl pt.position pt.velocity c.estPos c.estVel pt.accel)
              c.estAtt (c.runThrust pt dt).1).x,
            (c.RollPitchControl
              (c.LateralPositionControl pt.position pt.velocity c.estPos c.estVel pt.accel)
              c.estAtt (c.runThrust pt dt).1).y,
            c.YawControl pt.attitude.Yaw c.estAtt.Yaw⟩
          c.estOmega := rfl

/-- The margin-clamped thrust of a tick in terms of the altitude stage. -/
theorem runThrust_fst (c : QuadControl) (pt : TrajectoryPoint) (dt : ℚ) :
    (c.runThrust pt dt).1
      = CONSTRAIN
          (CONSTRAIN
            (c.altitudeThrustRaw pt.position.z pt.velocity.z c.estPos.z c.estVel.z c.estAtt
              pt.accel.z dt)
            (c.minMotorThrust * 4) (c.maxMotorThrust * 4))
          ((c.minMotorThrust + 1 / 10 * (c.maxMotorThrust - c.minMotorThrust)) * 4)
          ((c.maxMotorThrust - 1 / 10 * (c.maxMotorThrust - c.minMotorThrust)) * 4) := rfl

/-- On a tick with zero tracking error of a level vehicle within its limits, the desired body
rate is zero: the moment command is the body-rate controller's answer to the current rate. -/
theorem runMoment_on_target (c : QuadControl) (pt : TrajectoryPoint) (dt : ℚ)
    (ht : ZeroTrackingError c pt) (hl : LevelWithinLimits c) :
    c.runMoment pt dt = c.BodyRateControl ⟨0, 0, 0⟩ c.estOmega := by
  have hx : (c.LateralPositionControl pt.position pt.velocity c.estPos c.estVel pt.accel).x
      = 0 := by
    rw [(c.LateralPositionControl_xy _ _ _ _ _).1, ht.position_eq, ht.velocity_eq, ht.accel_zero]
    simp only [sub_self, mul_zero, add_zero, CONSTRAIN_of_mem hl.velX_ge hl.velX_le,
      CONSTRAIN_zero hl.maxAccelXY_nonneg]
  have hy : (c.LateralPositionControl pt.position pt.velocity c.estPos c.estVel pt.accel).y
      = 0 := by
    rw [(c.LateralPositionControl_xy _ _ _ _ _).2, ht.position_eq, ht.velocity_eq, ht.accel_zero]
    simp only [sub_self, mul_zero, add_zero, CONSTRAIN_of_mem hl.velY_ge hl.velY_le,
      CONSTRAIN_zero hl.maxAccelXY_nonneg]
  have hrp := c.RollPitchControl_level _ c.estAtt (c.runThrust pt dt).1 hx hy
    hl.level13 hl.level23 hl.level33 hl.maxTiltAngle_nonneg
  have hyaw : c.YawControl pt.attitude.Yaw c.estAtt.Yaw = 0 := by
    rw [YawControl_eq, ht.attitude_eq, yawError_self c _ hl.yaw_gt hl.yaw_lt, mul_zero]
  rw [runMoment_eq, hrp, hyaw]

/-- On a tick with zero tracking error of a level vehicle within its limits, the collective
thrust is `mass * (CONST_GRAVITY - KiPosZ * integratedAltitudeError)` whenever that value lies
within the thrust range narrowed by the margin. -/
theorem runThrust_on_target (c : QuadControl) (pt : TrajectoryPoint) (dt : ℚ)
    (ht : ZeroTrackingError c pt) (hl : LevelWithinLimits c)
    (hlo : (c.minMotorThrust + 1 / 10 * (c.maxMotorThrust - c.minMotorThrust)) * 4
      ≤ c.mass * (c.CONST_GRAVITY - c.KiPosZ * c.integratedAltitudeError))
    (hhi : c.mass * (c.CONST_GRAVITY - c.KiPosZ * c.integratedAltitudeError)
      ≤ (c.maxMotorThrust - 1 / 10 * (c.maxMotorThrust - c.minMotorThrust)) * 4) :
    (c.runThrust pt dt).1
      = c.mass * (c.CONST_GRAVITY - c.KiPosZ * c.integratedAltitudeError) := by
  have hz : pt.accel.z = 0 := by rw [ht.accel_zero]
  rw [runThrust_fst, ht.position_eq, ht.velocity_eq, hz,
    altitudeThrustRaw_on_target c _ _ dt c.estAtt hl.velZ_ge hl.velZ_le hl.level33,
    CONSTRAIN_of_mem (a := c.mass * _) (by linarith) (by linarith), CONSTRAIN_of_mem hlo hhi]

/-- The reference vehicle, also when spinning or with a wound-up accumulator, is level and
within its limits. -/
theorem scenario_level (ω : V3F) (acc : ℚ) :
    LevelWithinLimits { scenario with estOmega := ω, integratedAltitudeError := acc } where
  level13 := rfl
  level23 := rfl
  level33 := rfl
  velX_ge := by norm_num [scenario, zeroV3F]
  velX_le := by norm_num [scenario, zeroV3F]
  velY_ge := by norm_num [scenario, zeroV3F]
  velY_le := by norm_num [scenario, zeroV3F]
  velZ_ge := by norm_num [scenario, zeroV3F]
  velZ_le := by norm_num [scenario, zeroV3F]
  yaw_gt := by norm_num [scenario, levelAttitude]
  yaw_lt := by norm_num [scenario, levelAttitude]
  maxAccelXY_nonneg := by norm_num [scenario]
  maxTiltAngle_nonneg := by norm_num [scenario]

theorem scenario_gains (ω : V3F) (acc : ℚ) :
    NonzeroGains { scenario with estOmega := ω, integratedAltitudeError := acc } := by
  norm_num [NonzeroGains, scenario]

/-! ## The claims -/

/-- C1: for a configuration with `minMotorThrust ≤ maxMotorThrust`, each of the four values that
`GenerateMotorCommands` writes into `cmd.desiredThrustsN` (and returns) lies in
`[minMotorThrust, maxMotorThrust]`, for every thrust and moment command; and so does each value
of the command returned by `RunControl`, for every trajectory, tick length and time. -/
theorem motor_commands_within_bounds (c : QuadControl)
    (h : c.minMotorThrust ≤ c.maxMotorThrust) :
    (∀ (collThrustCmd : ℚ) (momentCmd : V3F) (i : Fin 4),
      (c.minMotorThrust ≤ (c.GenerateMotorCommands collThrustCmd momentCmd).2.cmd.desiredThrustsN i
        ∧ (c.GenerateMotorCommands collThrustCmd momentCmd).2.cmd.desiredThrustsN i
          ≤ c.maxMotorThrust)
      ∧ (c.GenerateMotorCommands collThrustCmd momentCmd).1.desiredThrustsN i
          = (c.GenerateMotorCommands collThrustCmd momentCmd).2.cmd.desiredThrustsN i)
    ∧ ∀ (GetNextTrajectoryPoint : ℚ → TrajectoryPoint) (dt simTime : ℚ) (i : Fin 4),
      c.minMotorThrust ≤ (c.RunControl GetNextTrajectoryPoint dt simTime).1.desiredThrustsN i
        ∧ (c.RunControl GetNextTrajectoryPoint dt simTime).1.desiredThrustsN i
          ≤ c.maxMotorThrust := by
  refine ⟨fun T M i => ?_, fun g dt simTime i => ?_⟩
  · rw [GenerateMotorCommands_cmd, GenerateMotorCommands_fst]
    exact ⟨⟨CONSTRAIN_ge _ _ _, CONSTRAIN_le _ h⟩, rfl⟩
  · unfold RunControl
    simp only [GenerateMotorCommands_fst, runThrust_minMotorThrust, runThrust_maxMotorThrust]
    exact ⟨CONSTRAIN_ge _ _ _, CONSTRAIN_le _ h⟩

/-- C1, at the reference configuration: the first motor thrust of a tick at rest is within the
thrust bounds. -/
theorem motor_commands_within_bounds_witness :
    scenario.minMotorThrust ≤ scenario.maxMotorThrust
      ∧ scenario.minMotorThrust
          ≤ (scenario.RunControl (fun _ => restPoint) (1 / 100) 0).1.desiredThrustsN 0
      ∧ (scenario.RunControl (fun _ => restPoint) (1 / 100) 0).1.desiredThrustsN 0
          ≤ scenario.maxMotorThrust :=
  ⟨by norm_num [scenario],
    (motor_commands_within_bounds scenario (by norm_num [scenario])).2
      (fun _ => restPoint) (1 / 100) 0 0⟩

/-- C2: `GenerateMotorCommands` returns exactly the four clamped mixes of `p = Mx/(L/sqrtf 2)`,
`q = My/(L/sqrtf 2)`, `r = -Mz/kappa` and the collective thrust `c`; for the zero moment all four
are `CONSTRAIN (c/4)`; and for thrust `4.9` with zero moment and bounds containing `1.225` all
four are `1.225`. -/
theorem GenerateMotorCommands_mix (c : QuadControl) (collThrustCmd : ℚ) (momentCmd : V3F) :
    (c.GenerateMotorCommands collThrustCmd momentCmd).1.desiredThrustsN
        = ![CONSTRAIN
              ((momentCmd.x / (c.L / c.sqrtf2) + momentCmd.y / (c.L / c.sqrtf2)
                + -momentCmd.z / c.kappa + collThrustCmd) / 4)
              c.minMotorThrust c.maxMotorThrust,
            CONSTRAIN
              ((-(momentCmd.x / (c.L / c.sqrtf2)) + momentCmd.y / (c.L / c.sqrtf2)
                - -momentCmd.z / c.kappa + collThrustCmd) / 4)
              c.minMotorThrust c.maxMotorThrust,
            CONSTRAIN
              ((momentCmd.x / (c.L / c.sqrtf2) - momentCmd.y / (c.L / c.sqrtf2)
                - -momentCmd.z / c.kappa + collThrustCmd) / 4)
              c.minMotorThrust c.maxMotorThrust,
            CONSTRAIN
              ((-(momentCmd.x / (c.L / c.sqrtf2)) - momentCmd.y / (c.L / c.sqrtf2)
                + -momentCmd.z / c.kappa + collThrustCmd) / 4)
              c.minMotorThrust c.maxMotorThrust]
      ∧ (∀ i : Fin 4, (c.GenerateMotorCommands collThrustCmd ⟨0, 0, 0⟩).1.desiredThrustsN i
          = CONSTRAIN (collThrustCmd / 4) c.minMotorThrust c.maxMotorThrust)
      ∧ (c.minMotorThrust ≤ 1225 / 1000 → 1225 / 1000 ≤ c.maxMotorThrust →
          ∀ i : Fin 4, (c.GenerateMotorCommands (49 / 10) ⟨0, 0, 0⟩).1.desiredThrustsN i
            = 1225 / 1000) := by
  refine ⟨rfl, GenerateMotorCommands_zero_moment c collThrustCmd, fun h1 h2 i => ?_⟩
  rw [GenerateMotorCommands_zero_moment, CONSTRAIN_of_mem] <;> norm_num <;> linarith

/-- C2, the scenario of the specification: mass `0.5`, inertias `0.0023`, arm length `0.17`,
`kappa = 0.016`, moment zero and thrust `4.9` give four motor thrusts of `1.225`. -/
theorem GenerateMotorCommands_mix_witness :
    scenario.minMotorThrust ≤ 1225 / 1000 ∧ 1225 / 1000 ≤ scenario.maxMotorThrust
      ∧ ∀ i : Fin 4, (scenario.GenerateMotorCommands (49 / 10) ⟨0, 0, 0⟩).1.desiredThrustsN i
          = 1225 / 1000 :=
  ⟨by norm_num [scenario], by norm_num [scenario],
    (GenerateMotorCommands_mix scenario (49 / 10) zeroV3F).2.2
      (by norm_num [scenario]) (by norm_num [scenario])⟩

/-- C3: for a configuration with `minMotorThrust ≤ maxMotorThrust` the thrust returned by
`AltitudeControl` lies in `[4 * minMotorThrust, 4 * maxMotorThrust]`, whatever the positions,
velocities, feed-forward, attitude, tick length and accumulator. -/
theorem AltitudeControl_within_bounds (c : QuadControl) (posZCmd velZCmd posZ velZ : ℚ)
    (attitude : Quaternion) (accelZCmd dt : ℚ) (h : c.minMotorThrust ≤ c.maxMotorThrust) :
    4 * c.minMotorThrust ≤ (c.AltitudeControl posZCmd velZCmd posZ velZ attitude accelZCmd dt).1
      ∧ (c.AltitudeControl posZCmd velZCmd posZ velZ attitude accelZCmd dt).1
          ≤ 4 * c.maxMotorThrust := by
  have h4 : c.minMotorThrust * 4 ≤ c.maxMotorThrust * 4 := by linarith
  rw [AltitudeControl_fst, mul_comm 4, mul_comm 4]
  exact ⟨CONSTRAIN_ge _ _ _, CONSTRAIN_le _ h4⟩

/-- C3, at the reference configuration: a climb of 100 m demanded of the level vehicle saturates
the thrust, which stays within the bounds. -/
theorem AltitudeControl_within_bounds_witness :
    scenario.minMotorThrust ≤ scenario.maxMotorThrust
      ∧ 4 * scenario.minMotorThrust
          ≤ (scenario.AltitudeControl (-100) 0 0 0 levelAttitude 0 (1 / 100)).1
      ∧ (scenario.AltitudeControl (-100) 0 0 0 levelAttitude 0 (1 / 100)).1
          ≤ 4 * scenario.maxMotorThrust :=
  ⟨by norm_num [scenario],
    AltitudeControl_within_bounds scenario (-100) 0 0 0 levelAttitude 0 (1 / 100)
      (by norm_num [scenario])⟩

/-- C4: for a configuration with `maxAccelXY ≥ 0` every component of the acceleration returned by
`LateralPositionControl` lies in `[-maxAccelXY, maxAccelXY]`, for every input. -/
theorem LateralPositionControl_within_bounds (c : QuadControl)
    (posCmd velCmd pos vel accelCmdFF : V3F) (h : 0 ≤ c.maxAccelXY) :
    (-c.maxAccelXY ≤ (c.LateralPositionControl posCmd velCmd pos vel accelCmdFF).x
        ∧ (c.LateralPositionControl posCmd velCmd pos vel accelCmdFF).x ≤ c.maxAccelXY)
      ∧ (-c.maxAccelXY ≤ (c.LateralPositionControl posCmd velCmd pos vel accelCmdFF).y
        ∧ (c.LateralPositionControl posCmd velCmd pos vel accelCmdFF).y ≤ c.maxAccelXY)
      ∧ (-c.maxAccelXY ≤ (c.LateralPositionControl posCmd velCmd pos vel accelCmdFF).z
        ∧ (c.LateralPositionControl posCmd velCmd pos vel accelCmdFF).z ≤ c.maxAccelXY) := by
  have hb : -c.maxAccelXY ≤ c.maxAccelXY := by linarith
  unfold LateralPositionControl V3F.constrain
  exact ⟨⟨CONSTRAIN_ge _ _ _, CONSTRAIN_le _ hb⟩, ⟨CONSTRAIN_ge _ _ _, CONSTRAIN_le _ hb⟩,
    ⟨CONSTRAIN_ge _ _ _, CONSTRAIN_le _ hb⟩⟩

/-- C4, at the reference configuration: a target 100 m north saturates the commanded
acceleration, which stays within the bound. -/
theorem LateralPositionControl_within_bounds_witness :
    0 ≤ scenario.maxAccelXY
      ∧ (-scenario.maxAccelXY
            ≤ (scenario.LateralPositionControl ⟨100, 0, 0⟩ zeroV3F zeroV3F zeroV3F zeroV3F).x
          ∧ (scenario.LateralPositionControl ⟨100, 0, 0⟩ zeroV3F zeroV3F zeroV3F zeroV3F).x
            ≤ scenario.maxAccelXY) :=
  ⟨by norm_num [scenario],
    (LateralPositionControl_within_bounds scenario ⟨100, 0, 0⟩ zeroV3F zeroV3F zeroV3F zeroV3F
      (by norm_num [scenario])).1⟩

/-- C5: the Z component returned by `LateralPositionControl` is not always zero. The function
zeroes the vertical parts of the desired position, velocity and feed-forward but leaves the
current vertical velocity in the velocity error: at the reference configuration, hovering on
target with a current vertical velocity of `0.5`, the returned Z component is
`kpVelXY * (0 - 0.5) = -6.5`. -/
theorem LateralPositionControl_z_at_vertical_speed :
    (scenario.LateralPositionControl zeroV3F zeroV3F zeroV3F ⟨0, 0, 1 / 2⟩ zeroV3F).z = -13 / 2
      ∧ (scenario.LateralPositionControl zeroV3F zeroV3F zeroV3F ⟨0, 0, 1 / 2⟩ zeroV3F).z ≠ 0 := by
  have e : (scenario.LateralPositionControl zeroV3F zeroV3F zeroV3F ⟨0, 0, 1 / 2⟩ zeroV3F).z
      = CONSTRAIN (0 + (30 * (0 - 0) + 13 * (CONSTRAIN 0 (-5) 5 - 1 / 2))) (-12) 12 :=
    LateralPositionControl_z scenario zeroV3F zeroV3F zeroV3F ⟨0, 0, 1 / 2⟩ zeroV3F
  have e1 : CONSTRAIN 0 (-5) 5 = 0 := CONSTRAIN_of_mem (by norm_num) (by norm_num)
  have e2 : CONSTRAIN (-13 / 2) (-12) 12 = -13 / 2 :=
    CONSTRAIN_of_mem (by norm_num) (by norm_num)
  have e3 : (0 : ℚ) + (30 * (0 - 0) + 13 * (0 - 1 / 2)) = -13 / 2 := by norm_num
  rw [e, e1, e3, e2]
  exact ⟨rfl, by norm_num⟩

/-- C6: for every desired acceleration, attitude and collective thrust command `≤ 0`,
`RollPitchControl` returns the zero vector, and the only division the call carries out is
`collThrustCmd / mass`: neither division by the collective acceleration is reached. -/
theorem RollPitchControl_nonpositive_thrust (c : QuadControl) (accelCmd : V3F)
    (attitude : Quaternion) (collThrustCmd : ℚ) (h : collThrustCmd ≤ 0) :
    c.RollPitchControl accelCmd attitude collThrustCmd = ⟨0, 0, 0⟩
      ∧ (c.RollPitchControlTraced accelCmd attitude collThrustCmd).2 = [DivSite.thrustByMass]
      ∧ DivSite.accelXByCAccel ∉ (c.RollPitchControlTraced accelCmd attitude collThrustCmd).2
      ∧ DivSite.accelYByCAccel ∉ (c.RollPitchControlTraced accelCmd attitude collThrustCmd).2 := by
  have hn : ¬ collThrustCmd > 0 := not_lt.mpr h
  have e : c.RollPitchControlTraced accelCmd attitude collThrustCmd
      = (V3F.ofFloat 0, [DivSite.thrustByMass]) := by
    unfold RollPitchControlTraced
    simp only [hn, if_false]
  unfold RollPitchControl
  rw [e]
  exact ⟨rfl, rfl, by decide, by decide⟩

/-- C6, at the reference configuration: a thrust command of `-1` with a demanded acceleration
gives the zero rate command. -/
theorem RollPitchControl_nonpositive_thrust_witness :
    (-1 : ℚ) ≤ 0 ∧ scenario.RollPitchControl ⟨3, 4, 0⟩ levelAttitude (-1) = ⟨0, 0, 0⟩ :=
  ⟨by norm_num,
    (RollPitchControl_nonpositive_thrust scenario ⟨3, 4, 0⟩ levelAttitude (-1) (by norm_num)).1⟩

/-- C7, as stated, fails: at the reference configuration with desired yaw `0` and a current yaw
of `10` rad the single wrap step leaves the error `-10 + 2 * F_PI`, which is below `-F_PI`, and
the returned yaw rate exceeds `|kpYaw| * F_PI` in magnitude. -/
theorem yawError_outside_range :
    scenario.yawError 0 10 = -10 + 2 * scenario.F_PI
      ∧ scenario.yawError 0 10 < -scenario.F_PI
      ∧ |scenario.kpYaw| * scenario.F_PI < |scenario.YawControl 0 10| := by
  have hf : fmodf 0 (2 * scenario.F_PI) = 0 :=
    fmodf_of_abs_lt (by norm_num [scenario_F_PI]) (by norm_num [scenario_F_PI])
  have e : scenario.yawError 0 10 = -10 + 2 * scenario.F_PI := by
    rw [yawError_eq, hf, if_neg (by norm_num [scenario_F_PI]),
      if_pos (by norm_num [scenario_F_PI])]
    ring
  have hk : scenario.kpYaw = 2 := rfl
  refine ⟨e, ?_, ?_⟩
  · rw [e, scenario_F_PI]
    norm_num
  · rw [YawControl_eq, e, hk, scenario_F_PI, abs_mul]
    norm_num [abs_of_neg]

/-- C7, amended: for a positive `F_PI`, the yaw error that `YawControl` multiplies by `kpYaw`
lies in `[-F_PI, F_PI]` exactly when the unwrapped error `fmodf(yawCmd, 2 * F_PI) - yaw` lies in
`[-3 * F_PI, 3 * F_PI]`; and then the returned yaw rate has magnitude at most `|kpYaw| * F_PI`. -/
theorem yawError_within_range_iff (c : QuadControl) (yawCmd yaw : ℚ) (hpi : 0 < c.F_PI) :
    (|c.yawError yawCmd yaw| ≤ c.F_PI ↔ |c.yawCmdNormalised yawCmd - yaw| ≤ 3 * c.F_PI)
      ∧ (|c.yawCmdNormalised yawCmd - yaw| ≤ 3 * c.F_PI →
          |c.YawControl yawCmd yaw| ≤ |c.kpYaw| * c.F_PI) := by
  have key : |c.yawError yawCmd yaw| ≤ c.F_PI ↔ |c.yawCmdNormalised yawCmd - yaw| ≤ 3 * c.F_PI := by
    rw [yawError_eq]
    unfold yawCmdNormalised
    generalize fmodf yawCmd (2 * c.F_PI) - yaw = e
    rw [abs_le, abs_le]
    split_ifs with h1 h2
    · constructor
      · rintro ⟨a, b⟩
        constructor <;> linarith
      · rintro ⟨a, b⟩
        constructor <;> linarith
    · constructor
      · rintro ⟨a, b⟩
        constructor <;> linarith
      · rintro ⟨a, b⟩
        constructor <;> linarith
    · have h1 := not_lt.mp h1
      have h2 := not_lt.mp h2
      constructor
      · rintro ⟨a, b⟩
        constructor <;> linarith
      · rintro ⟨a, b⟩
        constructor <;> linarith
  refine ⟨key, fun h => ?_⟩
  rw [YawControl_eq, abs_mul]
  exact mul_le_mul_of_nonneg_left (key.mpr h) (abs_nonneg _)

/-- C7, amended, at the reference configuration: desired yaw `1` and current yaw `0` give an
unwrapped error within `3 * F_PI`, hence a yaw rate of magnitude at most `|kpYaw| * F_PI`. -/
theorem yawError_within_range_iff_witness :
    0 < scenario.F_PI ∧ |scenario.yawCmdNormalised 1 - 0| ≤ 3 * scenario.F_PI
      ∧ |scenario.YawControl 1 0| ≤ |scenario.kpYaw| * scenario.F_PI := by
  have hpi : 0 < scenario.F_PI := by norm_num [scenario_F_PI]
  have hf : scenario.yawCmdNormalised 1 = 1 :=
    fmodf_of_abs_lt (by norm_num [scenario_F_PI]) (by norm_num [scenario_F_PI])
  have he : |scenario.yawCmdNormalised 1 - 0| ≤ 3 * scenario.F_PI := by
    rw [hf, scenario_F_PI]
    norm_num
  exact ⟨hpi, he, (yawError_within_range_iff scenario 1 0 hpi).2 he⟩

/-- C8: for a positive `F_PI`, with `e = fmodf(yawCmd, 2 * F_PI) - yaw`, `YawControl` returns
`kpYaw * (e - 2 * F_PI)` when `e > F_PI`, `kpYaw * (e + 2 * F_PI)` when `e < -F_PI` and
`kpYaw * e` otherwise; for desired yaw `3 * F_PI / 2` and current yaw `0` the wrapped error is
`-F_PI / 2`, not `3 * F_PI / 2`, and the result is `-kpYaw * F_PI / 2`. -/
theorem YawControl_shortest_path (c : QuadControl) (yawCmd yaw : ℚ) (hpi : 0 < c.F_PI) :
    (fmodf yawCmd (2 * c.F_PI) - yaw > c.F_PI →
        c.YawControl yawCmd yaw = c.kpYaw * (fmodf yawCmd (2 * c.F_PI) - yaw - 2 * c.F_PI))
      ∧ (fmodf yawCmd (2 * c.F_PI) - yaw < -c.F_PI →
        c.YawControl yawCmd yaw = c.kpYaw * (fmodf yawCmd (2 * c.F_PI) - yaw + 2 * c.F_PI))
      ∧ (-c.F_PI ≤ fmodf yawCmd (2 * c.F_PI) - yaw → fmodf yawCmd (2 * c.F_PI) - yaw ≤ c.F_PI →
        c.YawControl yawCmd yaw = c.kpYaw * (fmodf yawCmd (2 * c.F_PI) - yaw))
      ∧ c.yawError (3 * c.F_PI / 2) 0 = -(c.F_PI / 2)
      ∧ c.yawError (3 * c.F_PI / 2) 0 ≠ 3 * c.F_PI / 2
      ∧ c.YawControl (3 * c.F_PI / 2) 0 = -(c.kpYaw * c.F_PI / 2) := by
  have w : c.yawError (3 * c.F_PI / 2) 0 = -(c.F_PI / 2) := by
    have hf : fmodf (3 * c.F_PI / 2) (2 * c.F_PI) = 3 * c.F_PI / 2 :=
      fmodf_of_abs_lt (by linarith) (by linarith)
    rw [yawError_eq, hf, if_pos (by linarith)]
    ring
  refine ⟨fun h => ?_, fun h => ?_, fun h1 h2 => ?_, w, ?_, ?_⟩
  · rw [YawControl_eq, yawError_eq, if_pos h]
  · rw [YawControl_eq, yawError_eq, if_neg (by linarith), if_pos h]
  · rw [YawControl_eq, yawError_eq, if_neg (not_lt.mpr h2), if_neg (not_lt.mpr h1)]
  · rw [w]
    intro h
    linarith
  · rw [YawControl_eq, w]
    ring

/-- C8, at the reference configuration: desired yaw `3 * F_PI / 2` against current yaw `0` is
answered by turning the short way, at the rate `-kpYaw * F_PI / 2`. -/
theorem YawControl_shortest_path_witness :
    0 < scenario.F_PI
      ∧ scenario.YawControl (3 * scenario.F_PI / 2) 0 = -(scenario.kpYaw * scenario.F_PI / 2) :=
  ⟨by norm_num [scenario_F_PI],
    (YawControl_shortest_path scenario 0 0 (by norm_num [scenario_F_PI])).2.2.2.2.2⟩

/-- C9: the normalised desired yaw is not always in `[0, 2 * F_PI)`. `fmodf` keeps the sign of
its argument: at the reference configuration a desired yaw of `-1` rad is left at `-1`. -/
theorem yawCmdNormalised_negative :
    scenario.yawCmdNormalised (-1) = -1 ∧ scenario.yawCmdNormalised (-1) < 0 := by
  have hf : scenario.yawCmdNormalised (-1) = -1 :=
    fmodf_of_abs_lt (by norm_num [scenario_F_PI]) (by norm_num [scenario_F_PI])
  rw [hf]
  exact ⟨rfl, by norm_num⟩

/-- C10, as stated, fails. With every gain nonzero and the trajectory point equal to the
estimated state: the reference vehicle rolling at 1 rad/s (the desired rate being 1 rad/s too)
is answered with the moment `(-0.161, 0, 0)`, since the desired rate the body-rate stage sees is
computed by the attitude stage, not read from the trajectory; and the reference vehicle with
`0.01` in the altitude accumulator is given the thrust `4.705`, not `mass * CONST_GRAVITY =
4.905`. -/
theorem zero_tracking_error_not_hover :
    (NonzeroGains spinning ∧ ZeroTrackingError spinning spinPoint
        ∧ spinning.runMoment spinPoint (1 / 100) = ⟨-161 / 1000, 0, 0⟩
        ∧ spinning.runMoment spinPoint (1 / 100) ≠ ⟨0, 0, 0⟩)
      ∧ (NonzeroGains wound ∧ ZeroTrackingError wound restPoint
        ∧ (wound.runThrust restPoint (1 / 100)).1 = 941 / 200
        ∧ wound.mass * wound.CONST_GRAVITY = 981 / 200
        ∧ (wound.runThrust restPoint (1 / 100)).1 ≠ wound.mass * wound.CONST_GRAVITY) := by
  have hs : ZeroTrackingError spinning spinPoint := ⟨rfl, rfl, rfl, rfl, rfl⟩
  have hw : ZeroTrackingError wound restPoint := ⟨rfl, rfl, rfl, rfl, rfl⟩
  have m : spinning.runMoment spinPoint (1 / 100) = ⟨-161 / 1000, 0, 0⟩ := by
    rw [runMoment_on_target spinning spinPoint _ hs (scenario_level _ _)]
    ext <;> norm_num [BodyRateControl, spinning, scenario]
  have t : (wound.runThrust restPoint (1 / 100)).1 = 941 / 200 := by
    rw [runThrust_on_target wound restPoint _ hw (scenario_level _ _)
      (by norm_num [wound, scenario]) (by norm_num [wound, scenario])]
    norm_num [wound, scenario]
  have g : wound.mass * wound.CONST_GRAVITY = 981 / 200 := by norm_num [wound, scenario]
  refine ⟨⟨scenario_gains _ _, hs, m, ?_⟩, scenario_gains _ _, hw, t, g, ?_⟩
  · rw [m]
    intro h
    have hx := congrArg V3F.x h
    norm_num at hx
  · rw [t, g]
    norm_num

/-- C10, amended: on a tick on which the trajectory point equals the estimated state and the
feed-forward acceleration is zero, if moreover the vehicle is level and within its speed limits
with a heading below a full turn, its body rate is zero, the altitude accumulator is zero, the
acceleration and tilt limits are not negative, and `mass * CONST_GRAVITY` lies in the thrust
range narrowed by the margin, then the collective thrust command is `mass * CONST_GRAVITY`, the
moment command is zero, and all four motor thrusts equal `mass * CONST_GRAVITY / 4` and lie in
`[minMotorThrust, maxMotorThrust]`. -/
theorem RunControl_hover (c : QuadControl) (GetNextTrajectoryPoint : ℚ → TrajectoryPoint)
    (dt simTime : ℚ)
    (ht : ZeroTrackingError c (GetNextTrajectoryPoint simTime)) (hl : LevelWithinLimits c)
    (hrate : c.estOmega = ⟨0, 0, 0⟩) (hacc : c.integratedAltitudeError = 0)
    (hlo : (c.minMotorThrust + 1 / 10 * (c.maxMotorThrust - c.minMotorThrust)) * 4
      ≤ c.mass * c.CONST_GRAVITY)
    (hhi : c.mass * c.CONST_GRAVITY
      ≤ (c.maxMotorThrust - 1 / 10 * (c.maxMotorThrust - c.minMotorThrust)) * 4) :
    (c.runThrust (GetNextTrajectoryPoint simTime) dt).1 = c.mass * c.CONST_GRAVITY
      ∧ c.runMoment (GetNextTrajectoryPoint simTime) dt = ⟨0, 0, 0⟩
      ∧ ∀ i : Fin 4,
          (c.RunControl GetNextTrajectoryPoint dt simTime).1.desiredThrustsN i
              = c.mass * c.CONST_GRAVITY / 4
            ∧ c.minMotorThrust
              ≤ (c.RunControl GetNextTrajectoryPoint dt simTime).1.desiredThrustsN i
            ∧ (c.RunControl GetNextTrajectoryPoint dt simTime).1.desiredThrustsN i
              ≤ c.maxMotorThrust := by
  have e : c.mass * (c.CONST_GRAVITY - c.KiPosZ * c.integratedAltitudeError)
      = c.mass * c.CONST_GRAVITY := by
    rw [hacc]
    ring
  have hT : (c.runThrust (GetNextTrajectoryPoint simTime) dt).1 = c.mass * c.CONST_GRAVITY := by
    rw [runThrust_on_target c _ dt ht hl (by rw [e]; exact hlo) (by rw [e]; exact hhi), e]
  have hM : c.runMoment (GetNextTrajectoryPoint simTime) dt = ⟨0, 0, 0⟩ := by
    rw [runMoment_on_target c _ dt ht hl, hrate]
    ext <;> simp [BodyRateControl]
  have hR : ∀ i : Fin 4, (c.RunControl GetNextTrajectoryPoint dt simTime).1.desiredThrustsN i
      = c.mass * c.CONST_GRAVITY / 4 := by
    intro i
    unfold RunControl
    simp only [hM, hT, GenerateMotorCommands_zero_moment, runThrust_minMotorThrust,
      runThrust_maxMotorThrust]
    exact CONSTRAIN_of_mem (by linarith) (by linarith)
  refine ⟨hT, hM, fun i => ⟨hR i, ?_, ?_⟩⟩
  · rw [hR]
    linarith
  · rw [hR]
    linarith

/-- C10, amended, at the reference configuration: the level vehicle at rest on its target is
given the hover thrust `mass * CONST_GRAVITY` and the zero moment. -/
theorem RunControl_hover_witness :
    ZeroTrackingError scenario restPoint ∧ LevelWithinLimits scenario
      ∧ (scenario.runThrust restPoint (1 / 100)).1 = scenario.mass * scenario.CONST_GRAVITY
      ∧ scenario.runMoment restPoint (1 / 100) = ⟨0, 0, 0⟩ :=
  ⟨⟨rfl, rfl, rfl, rfl, rfl⟩, scenario_level zeroV3F 0,
    (RunControl_hover scenario (fun _ => restPoint) (1 / 100) 0 ⟨rfl, rfl, rfl, rfl, rfl⟩
      (scenario_level zeroV3F 0) rfl rfl (by norm_num [scenario]) (by norm_num [scenario])).1,
    (RunControl_hover scenario (fun _ => restPoint) (1 / 100) 0 ⟨rfl, rfl, rfl, rfl, rfl⟩
      (scenario_level zeroV3F 0) rfl rfl (by norm_num [scenario]) (by norm_num [scenario])).2.1⟩

/-! ## Claims on the accumulator, the lateral law and the composition -/

theorem AltitudeControl_snd_accumulator (c : QuadControl) (posZCmd velZCmd posZ velZ : ℚ)
    (attitude : Quaternion) (accelZCmd dt : ℚ) :
    (c.AltitudeControl posZCmd velZCmd posZ velZ attitude accelZCmd dt).2.integratedAltitudeError
      = c.integratedAltitudeError + (posZCmd - posZ) * dt := rfl

theorem altitudeCalls_KiPosZ (c : QuadControl) (inputs : ℕ → AltitudeInput) (n : ℕ) :
    (c.altitudeCalls inputs n).KiPosZ = c.KiPosZ := by
  induction n with
  | zero => rfl
  | succ n ih => exact ih

/-- The thrust before the clamp in terms of the integral term. -/
theorem altitudeThrustRaw_eq (c : QuadControl) (posZCmd velZCmd posZ velZ : ℚ)
    (attitude : Quaternion) (accelZCmd dt : ℚ) :
    c.altitudeThrustRaw posZCmd velZCmd posZ velZ attitude accelZCmd dt
      = c.mass * ((c.CONST_GRAVITY
          - (c.kpPosZ * (posZCmd - posZ)
            + c.kpVelZ * (CONSTRAIN velZCmd (-c.maxDescentRate) c.maxAscentRate - velZ)
            + c.altitudeIntegralTerm posZCmd posZ dt + accelZCmd))
          / attitude.RotationMatrix_IwrtB.get 2 2) := rfl

/-- The accumulator after `n` calls with the position error `e` and the tick `dt` on every call,
from a given start. -/
theorem altitudeCalls_accumulator (c : QuadControl) (inputs : ℕ → AltitudeInput) (e dt : ℚ)
    (hin : ∀ k, (inputs k).posZCmd - (inputs k).posZ = e ∧ (inputs k).dt = dt) (n : ℕ) :
    (c.altitudeCalls inputs n).integratedAltitudeError
      = c.integratedAltitudeError + n * e * dt := by
  induction n with
  | zero => simp [altitudeCalls]
  | succ n ih =>
    rw [altitudeCalls, AltitudeControl_snd_accumulator, ih, (hin n).1, (hin n).2]
    push_cast
    ring

/-- C11: every call of `AltitudeControl` sets `integratedAltitudeError` to its previous value plus
`(posZCmd - posZ) * dt`, whatever the inputs and the returned thrust; hence, from `Init`, after
`n` calls with a constant position error `e > 0` and a fixed `dt > 0` the accumulator is
`n * e * dt`, and for `KiPosZ > 0` the integral term of the successive calls is strictly
increasing. -/
theorem AltitudeControl_integrator (c : QuadControl) (config : ParamsHandle)
    (inputs : ℕ → AltitudeInput) (e dt : ℚ) (he : 0 < e) (hdt : 0 < dt)
    (hin : ∀ k, (inputs k).posZCmd - (inputs k).posZ = e ∧ (inputs k).dt = dt) :
    (∀ (c' : QuadControl) (a : AltitudeInput),
        (c'.AltitudeControl a.posZCmd a.velZCmd a.posZ a.velZ a.attitude a.accelZCmd
            a.dt).2.integratedAltitudeError
          = c'.integratedAltitudeError + (a.posZCmd - a.posZ) * a.dt)
      ∧ (∀ n : ℕ, ((c.Init config).altitudeCalls inputs n).integratedAltitudeError = n * e * dt)
      ∧ (0 < config.KiPosZ →
          StrictMono fun n : ℕ =>
            ((c.Init config).altitudeCalls inputs n).altitudeIntegralTerm
              (inputs n).posZCmd (inputs n).posZ (inputs n).dt) := by
  have hacc : ∀ n : ℕ,
      ((c.Init config).altitudeCalls inputs n).integratedAltitudeError = n * e * dt := by
    intro n
    rw [altitudeCalls_accumulator _ inputs e dt hin n]
    simp [Init]
  refine ⟨fun c' a => rfl, hacc, fun hk => strictMono_nat_of_lt_succ fun n => ?_⟩
  have hK : (c.Init config).KiPosZ = config.KiPosZ := rfl
  simp only [altitudeIntegralTerm, altitudeCalls_KiPosZ, hK, hacc, (hin _).1, (hin _).2]
  have hpos : 0 < config.KiPosZ * (e * dt) := mul_pos hk (mul_pos he hdt)
  push_cast
  nlinarith

/-- C11, at the reference configuration: a constant descent demand of one metre with a tick of
10 ms leaves `3 * 1 * 0.01` in the accumulator after three calls. -/
theorem AltitudeControl_integrator_witness :
    (0 : ℚ) < 1 ∧ (0 : ℚ) < 1 / 100
      ∧ ((scenario.Init scenarioParams).altitudeCalls (fun _ => descentInput)
          3).integratedAltitudeError = (3 : ℕ) * 1 * (1 / 100) :=
  ⟨by norm_num, by norm_num,
    (AltitudeControl_integrator scenario scenarioParams (fun _ => descentInput) 1 (1 / 100)
      (by norm_num) (by norm_num) (fun _ => ⟨by norm_num [descentInput], rfl⟩)).2.1 3⟩

theorem CONSTRAIN_of_high_le {a low high : ℚ} (h : low ≤ high) (ha : high ≤ a) :
    CONSTRAIN a low high = high := by
  unfold CONSTRAIN
  rw [min_eq_right ha, max_eq_right h]

theorem CONSTRAIN_of_le_low {a low high : ℚ} (h : low ≤ high) (ha : a ≤ low) :
    CONSTRAIN a low high = low := by
  unfold CONSTRAIN
  rw [min_eq_left (le_trans ha h), max_eq_left ha]

/-- Clamping a clamped value changes nothing, whatever the order of the bounds. -/
theorem CONSTRAIN_idem (a low high : ℚ) :
    CONSTRAIN (CONSTRAIN a low high) low high = CONSTRAIN a low high := by
  rcases le_total low high with h | h
  · exact CONSTRAIN_of_mem (CONSTRAIN_ge _ _ _) (CONSTRAIN_le _ h)
  · have e : ∀ b : ℚ, CONSTRAIN b low high = low := by
      intro b
      unfold CONSTRAIN
      exact max_eq_left (le_trans (min_le_right _ _) h)
    rw [e, e]

/-- C12: the X and Y components returned by `LateralPositionControl` are the clamp to
`±maxAccelXY` of `accelCmdFF + kpPosXY * (posCmd - pos) + kpVelXY * (clamp velCmd - vel)`, the
desired velocity being clamped to `±maxSpeedXY` before the velocity error is formed; a call with
the desired velocity already clamped returns the same vector; and there is an input whose desired
horizontal velocity exceeds `maxSpeedXY` on which the result differs from the same law evaluated
on the unclamped velocity. -/
theorem LateralPositionControl_clamps_velocity_first (c : QuadControl)
    (posCmd velCmd pos vel accelCmdFF : V3F) :
    (c.LateralPositionControl posCmd velCmd pos vel accelCmdFF).x
        = CONSTRAIN
            (accelCmdFF.x + (c.kpPosXY * (posCmd.x - pos.x)
              + c.kpVelXY * (CONSTRAIN velCmd.x (-c.maxSpeedXY) c.maxSpeedXY - vel.x)))
            (-c.maxAccelXY) c.maxAccelXY
      ∧ (c.LateralPositionControl posCmd velCmd pos vel accelCmdFF).y
        = CONSTRAIN
            (accelCmdFF.y + (c.kpPosXY * (posCmd.y - pos.y)
              + c.kpVelXY * (CONSTRAIN velCmd.y (-c.maxSpeedXY) c.maxSpeedXY - vel.y)))
            (-c.maxAccelXY) c.maxAccelXY
      ∧ c.LateralPositionControl posCmd (velCmd.constrain (-c.maxSpeedXY) c.maxSpeedXY) pos vel
          accelCmdFF
        = c.LateralPositionControl posCmd velCmd pos vel accelCmdFF
      ∧ ∃ (c' : QuadControl) (posCmd' velCmd' pos' vel' accelCmdFF' : V3F),
          c'.maxSpeedXY < velCmd'.x
            ∧ (c'.LateralPositionControl posCmd' velCmd' pos' vel' accelCmdFF').x
              ≠ (c'.lateralLawUnclampedVelocity posCmd' velCmd' pos' vel' accelCmdFF').x := by
  refine ⟨rfl, rfl, ?_, scenario, zeroV3F, ⟨10, 0, 0⟩, zeroV3F, ⟨9 / 2, 0, 0⟩, zeroV3F, ?_, ?_⟩
  · unfold LateralPositionControl
    ext <;> simp [CONSTRAIN_idem]
  · norm_num [scenario]
  · have e1 : (scenario.LateralPositionControl zeroV3F ⟨10, 0, 0⟩ zeroV3F ⟨9 / 2, 0, 0⟩
        zeroV3F).x = CONSTRAIN (0 + (30 * (0 - 0) + 13 * (CONSTRAIN 10 (-5) 5 - 9 / 2))) (-12) 12 :=
      rfl
    have e2 : (scenario.lateralLawUnclampedVelocity zeroV3F ⟨10, 0, 0⟩ zeroV3F ⟨9 / 2, 0, 0⟩
        zeroV3F).x = CONSTRAIN (0 + (30 * (0 - 0) + 13 * (10 - 9 / 2))) (-12) 12 := rfl
    have c1 : CONSTRAIN 10 (-5) 5 = 5 := CONSTRAIN_of_high_le (by norm_num) (by norm_num)
    have c2 : CONSTRAIN (0 + (30 * (0 - 0) + 13 * (5 - 9 / 2))) (-12) 12 = 13 / 2 := by
      rw [CONSTRAIN_of_mem] <;> norm_num
    have c3 : CONSTRAIN (0 + (30 * (0 - 0) + 13 * (10 - 9 / 2))) (-12) 12 = 12 :=
      CONSTRAIN_of_high_le (by norm_num) (by norm_num)
    rw [e1, e2, c1, c2, c3]
    norm_num

/-- C13: the result of `LateralPositionControl` does not depend on the vertical components of
the desired position, the desired velocity and the feed-forward acceleration: two calls that
agree on everything else return the same vector. -/
theorem LateralPositionControl_ignores_vertical_commands (c : QuadControl)
    (posCmd posCmd' velCmd velCmd' pos vel accelCmdFF accelCmdFF' : V3F)
    (hpx : posCmd.x = posCmd'.x) (hpy : posCmd.y = posCmd'.y)
    (hvx : velCmd.x = velCmd'.x) (hvy : velCmd.y = velCmd'.y)
    (hax : accelCmdFF.x = accelCmdFF'.x) (hay : accelCmdFF.y = accelCmdFF'.y) :
    c.LateralPositionControl posCmd velCmd pos vel accelCmdFF
      = c.LateralPositionControl posCmd' velCmd' pos vel accelCmdFF' := by
  unfold LateralPositionControl
  simp only [hpx, hpy, hvx, hvy, hax, hay]

/-- C13, at the reference configuration: two calls that differ in the vertical components of
the three desired inputs only return the same vector. -/
theorem LateralPositionControl_ignores_vertical_commands_witness :
    scenario.LateralPositionControl ⟨1, 2, 3⟩ ⟨4, 5, 6⟩ zeroV3F zeroV3F ⟨7, 8, 9⟩
      = scenario.LateralPositionControl ⟨1, 2, -3⟩ ⟨4, 5, 60⟩ zeroV3F zeroV3F ⟨7, 8, 0⟩ :=
  LateralPositionControl_ignores_vertical_commands scenario ⟨1, 2, 3⟩ ⟨1, 2, -3⟩ ⟨4, 5, 6⟩
    ⟨4, 5, 60⟩ zeroV3F zeroV3F ⟨7, 8, 9⟩ ⟨7, 8, 0⟩ rfl rfl rfl rfl rfl rfl

/-- The mixer reads nothing that the altitude stage writes. -/
theorem runThrust_GenerateMotorCommands (c : QuadControl) (pt : TrajectoryPoint) (dt T : ℚ)
    (M : V3F) :
    ((c.runThrust pt dt).2.GenerateMotorCommands T M).1 = (c.GenerateMotorCommands T M).1 := rfl

/-- The margin-clamped thrust of a tick, with the bounds written as in the specification. -/
theorem runThrust_fst_margin (c : QuadControl) (pt : TrajectoryPoint) (dt : ℚ) :
    (c.runThrust pt dt).1
      = CONSTRAIN
          (c.AltitudeControl pt.position.z pt.velocity.z c.estPos.z c.estVel.z c.estAtt
            pt.accel.z dt).1
          (4 * (c.minMotorThrust + 1 / 10 * (c.maxMotorThrust - c.minMotorThrust)))
          (4 * (c.maxMotorThrust - 1 / 10 * (c.maxMotorThrust - c.minMotorThrust))) := by
  rw [runThrust_fst, AltitudeControl_fst, mul_comm 4, mul_comm 4]

/-- C14: `RunControl` is the fixed composition of the stages: it returns the mixer's answer to
the margin-clamped thrust `T` of the altitude stage and the body-rate stage's moment for the
roll and pitch rates of the attitude stage (fed by the lateral stage and `T`) and the yaw rate of
the yaw stage; and for `minMotorThrust ≤ maxMotorThrust` the thrust `T` lies in
`[4 * (minMotorThrust + m), 4 * (maxMotorThrust - m)]` with
`m = 0.1 * (maxMotorThrust - minMotorThrust)`. -/
theorem RunControl_is_composition (c : QuadControl)
    (GetNextTrajectoryPoint : ℚ → TrajectoryPoint) (dt simTime : ℚ) :
    (c.RunControl GetNextTrajectoryPoint dt simTime).1
        = c.RunControlComposition (GetNextTrajectoryPoint simTime) dt
      ∧ (c.runThrust (GetNextTrajectoryPoint simTime) dt).1
        = CONSTRAIN
            (c.AltitudeControl (GetNextTrajectoryPoint simTime).position.z
              (GetNextTrajectoryPoint simTime).velocity.z c.estPos.z c.estVel.z c.estAtt
              (GetNextTrajectoryPoint simTime).accel.z dt).1
            (4 * (c.minMotorThrust + 1 / 10 * (c.maxMotorThrust - c.minMotorThrust)))
            (4 * (c.maxMotorThrust - 1 / 10 * (c.maxMotorThrust - c.minMotorThrust)))
      ∧ (c.minMotorThrust ≤ c.maxMotorThrust →
          4 * (c.minMotorThrust + 1 / 10 * (c.maxMotorThrust - c.minMotorThrust))
              ≤ (c.runThrust (GetNextTrajectoryPoint simTime) dt).1
            ∧ (c.runThrust (GetNextTrajectoryPoint simTime) dt).1
              ≤ 4 * (c.maxMotorThrust - 1 / 10 * (c.maxMotorThrust - c.minMotorThrust))) := by
  refine ⟨?_, runThrust_fst_margin c _ dt, fun h => ?_⟩
  · unfold RunControl RunControlComposition
    simp only [runThrust_GenerateMotorCommands, runMoment_eq, runThrust_fst_margin]
  · rw [runThrust_fst_margin]
    exact ⟨CONSTRAIN_ge _ _ _, CONSTRAIN_le _ (by linarith)⟩

/-- C14, at the reference configuration: the thrust of a tick at rest lies within the range
narrowed by the margin. -/
theorem RunControl_is_composition_witness :
    scenario.minMotorThrust ≤ scenario.maxMotorThrust
      ∧ 4 * (scenario.minMotorThrust
            + 1 / 10 * (scenario.maxMotorThrust - scenario.minMotorThrust))
          ≤ (scenario.runThrust restPoint (1 / 100)).1
      ∧ (scenario.runThrust restPoint (1 / 100)).1
          ≤ 4 * (scenario.maxMotorThrust
            - 1 / 10 * (scenario.maxMotorThrust - scenario.minMotorThrust)) :=
  ⟨by norm_num [scenario],
    (RunControl_is_composition scenario (fun _ => restPoint) (1 / 100) 0).2.2
      (by norm_num [scenario])⟩

/-! ## Claims on the control laws of the stages -/

/-- C15: `BodyRateControl` returns, axis by axis, the moment of inertia times the gain `kpPQR`
times the rate error; it returns the zero moment when the desired rate is the current one; and
each axis of the result depends only on the same axis of the two inputs. -/
theorem BodyRateControl_proportional (c : QuadControl) (pqrCmd pqr : V3F) :
    c.BodyRateControl pqrCmd pqr
        = ⟨c.Ixx * c.kpPQR.x * (pqrCmd.x - pqr.x), c.Iyy * c.kpPQR.y * (pqrCmd.y - pqr.y),
            c.Izz * c.kpPQR.z * (pqrCmd.z - pqr.z)⟩
      ∧ c.BodyRateControl pqr pqr = ⟨0, 0, 0⟩
      ∧ (∀ pqrCmd' pqr' : V3F, pqrCmd'.x = pqrCmd.x → pqr'.x = pqr.x →
          (c.BodyRateControl pqrCmd' pqr').x = (c.BodyRateControl pqrCmd pqr).x)
      ∧ (∀ pqrCmd' pqr' : V3F, pqrCmd'.y = pqrCmd.y → pqr'.y = pqr.y →
          (c.BodyRateControl pqrCmd' pqr').y = (c.BodyRateControl pqrCmd pqr).y)
      ∧ (∀ pqrCmd' pqr' : V3F, pqrCmd'.z = pqrCmd.z → pqr'.z = pqr.z →
          (c.BodyRateControl pqrCmd' pqr').z = (c.BodyRateControl pqrCmd pqr).z) := by
  refine ⟨rfl, ?_, fun a b h1 h2 => ?_, fun a b h1 h2 => ?_, fun a b h1 h2 => ?_⟩
  · ext <;> simp [BodyRateControl]
  · simp [BodyRateControl, h1, h2]
  · simp [BodyRateControl, h1, h2]
  · simp [BodyRateControl, h1, h2]

/-- C15, at the reference configuration: the roll moment for a desired roll rate of `1` against
a current rate of `0` is the same whatever the other two axes ask for. -/
theorem BodyRateControl_proportional_witness :
    (scenario.BodyRateControl ⟨1, 5, -2⟩ ⟨0, 3, 7⟩).x
      = (scenario.BodyRateControl ⟨1, 0, 0⟩ ⟨0, 0, 0⟩).x :=
  (BodyRateControl_proportional scenario ⟨1, 0, 0⟩ ⟨0, 0, 0⟩).2.2.1 ⟨1, 5, -2⟩ ⟨0, 3, 7⟩ rfl rfl

/-- C16: `AltitudeControl` returns the clamp to `[4 * minMotorThrust, 4 * maxMotorThrust]` of
`mass * (CONST_GRAVITY - u) / R33`, where `u` is the sum of `kpPosZ` times the position error,
`kpVelZ` times the error of the clamped desired velocity, `KiPosZ` times the accumulator after
the update of this call, and the feed-forward; so for a level vehicle with both errors zero, the
accumulator zero and no feed-forward it returns the clamp of `mass * CONST_GRAVITY`. -/
theorem AltitudeControl_law (c : QuadControl) (posZCmd velZCmd posZ velZ : ℚ)
    (attitude : Quaternion) (accelZCmd dt : ℚ) :
    (c.AltitudeControl posZCmd velZCmd posZ velZ attitude accelZCmd dt).1
        = CONSTRAIN
            (c.mass * (c.CONST_GRAVITY
                - (c.kpPosZ * (posZCmd - posZ)
                  + c.kpVelZ * (CONSTRAIN velZCmd (-c.maxDescentRate) c.maxAscentRate - velZ)
                  + c.KiPosZ * (c.AltitudeControl posZCmd velZCmd posZ velZ attitude accelZCmd
                      dt).2.integratedAltitudeError
                  + accelZCmd))
              / attitude.RotationMatrix_IwrtB.get 2 2)
            (4 * c.minMotorThrust) (4 * c.maxMotorThrust)
      ∧ (attitude.RotationMatrix_IwrtB.get 2 2 = 1 → posZCmd - posZ = 0 →
          CONSTRAIN velZCmd (-c.maxDescentRate) c.maxAscentRate - velZ = 0 →
          c.integratedAltitudeError = 0 → accelZCmd = 0 →
          (c.AltitudeControl posZCmd velZCmd posZ velZ attitude accelZCmd dt).1
            = CONSTRAIN (c.mass * c.CONST_GRAVITY) (4 * c.minMotorThrust)
                (4 * c.maxMotorThrust)) := by
  have law : (c.AltitudeControl posZCmd velZCmd posZ velZ attitude accelZCmd dt).1
      = CONSTRAIN
          (c.mass * (c.CONST_GRAVITY
              - (c.kpPosZ * (posZCmd - posZ)
                + c.kpVelZ * (CONSTRAIN velZCmd (-c.maxDescentRate) c.maxAscentRate - velZ)
                + c.KiPosZ * (c.AltitudeControl posZCmd velZCmd posZ velZ attitude accelZCmd
                    dt).2.integratedAltitudeError
                + accelZCmd))
            / attitude.RotationMatrix_IwrtB.get 2 2)
          (4 * c.minMotorThrust) (4 * c.maxMotorThrust) := by
    rw [AltitudeControl_fst, altitudeThrustRaw_eq, AltitudeControl_snd_accumulator,
      mul_comm c.minMotorThrust, mul_comm c.maxMotorThrust, mul_div_assoc]
    rfl
  refine ⟨law, fun h33 hp hv hI hff => ?_⟩
  rw [law, AltitudeControl_snd_accumulator, h33, hp, hv, hI, hff]
  congr 1
  ring

/-- C16, at the reference configuration: the level vehicle on its target, with an empty
accumulator and no feed-forward, is given the clamp of `mass * CONST_GRAVITY`. -/
theorem AltitudeControl_law_witness :
    (scenario.AltitudeControl 0 0 0 0 levelAttitude 0 (1 / 100)).1
      = CONSTRAIN (scenario.mass * scenario.CONST_GRAVITY) (4 * scenario.minMotorThrust)
          (4 * scenario.maxMotorThrust) :=
  (AltitudeControl_law scenario 0 0 0 0 levelAttitude 0 (1 / 100)).2 rfl (by norm_num)
    (by
      have e : CONSTRAIN 0 (-scenario.maxDescentRate) scenario.maxAscentRate = 0 :=
        CONSTRAIN_of_mem (by norm_num [scenario]) (by norm_num [scenario])
      rw [e, sub_zero])
    rfl rfl

/-- The result of `RollPitchControl` on the branch of a positive thrust command, component by
component, in terms of the commanded tilt. -/
theorem RollPitchControl_of_pos (c : QuadControl) (accelCmd : V3F) (attitude : Quaternion)
    (T : ℚ) (h : 0 < T) :
    c.RollPitchControl accelCmd attitude T
      = ⟨1 / attitude.RotationMatrix_IwrtB.get 2 2
            * (attitude.RotationMatrix_IwrtB.get 1 0
                * (c.kpBank * ((c.bCommanded accelCmd T).x - attitude.RotationMatrix_IwrtB.get 0 2))
              + -attitude.RotationMatrix_IwrtB.get 0 0
                * (c.kpBank * ((c.bCommanded accelCmd T).y - attitude.RotationMatrix_IwrtB.get 1 2))
              + 0 * (c.kpBank * ((c.bCommanded accelCmd T).z - 0))),
          1 / attitude.RotationMatrix_IwrtB.get 2 2
            * (attitude.RotationMatrix_IwrtB.get 1 1
                * (c.kpBank * ((c.bCommanded accelCmd T).x - attitude.RotationMatrix_IwrtB.get 0 2))
              + -attitude.RotationMatrix_IwrtB.get 0 1
                * (c.kpBank * ((c.bCommanded accelCmd T).y - attitude.RotationMatrix_IwrtB.get 1 2))
              + 0 * (c.kpBank * ((c.bCommanded accelCmd T).z - 0))),
          1 / attitude.RotationMatrix_IwrtB.get 2 2
            * (0 * (c.kpBank * ((c.bCommanded accelCmd T).x - attitude.RotationMatrix_IwrtB.get 0 2))
              + 0 * (c.kpBank * ((c.bCommanded accelCmd T).y - attitude.RotationMatrix_IwrtB.get 1 2))
              + 0 * (c.kpBank * ((c.bCommanded accelCmd T).z - 0)))⟩ := by
  have hT : T > 0 := h
  unfold RollPitchControl RollPitchControlTraced
  simp only [hT, if_true]
  rfl

/-- The commanded tilt before the clamp, as the negated acceleration scaled by mass over
thrust. -/
theorem accel_div_neg_cAccel (a mass T : ℚ) : a / -(T / mass) = -(a * mass / T) := by
  rw [div_neg, div_div_eq_mul_div]

/-- The checked embedding agrees with the exact one wherever it returns a vector, and returns
none exactly for a positive thrust command at `R33 = 0`. -/
theorem RollPitchControlChecked_fst (c : QuadControl) (accelCmd : V3F) (attitude : Quaternion)
    (T : ℚ) :
    (c.RollPitchControlChecked accelCmd attitude T).1
      = if 0 < T ∧ attitude.RotationMatrix_IwrtB.get 2 2 = 0 then none
        else some (c.RollPitchControl accelCmd attitude T) := by
  unfold RollPitchControlChecked RollPitchControl RollPitchControlTraced
  by_cases hT : T > 0
  · by_cases h33 : attitude.RotationMatrix_IwrtB.get 2 2 = 0
    · simp only [hT, if_true, h33, true_and]
    · have hT' : 0 < T := hT
      simp only [hT, hT', if_true, h33, if_false, and_false]
  · have hT' : ¬ 0 < T := hT
    simp only [hT, hT', if_false, false_and]

/-- The checked embedding carries out the same divisions as the exact one. -/
theorem RollPitchControlChecked_snd (c : QuadControl) (accelCmd : V3F) (attitude : Quaternion)
    (T : ℚ) :
    (c.RollPitchControlChecked accelCmd attitude T).2
      = (c.RollPitchControlTraced accelCmd attitude T).2 := by
  unfold RollPitchControlChecked RollPitchControlTraced
  by_cases hT : T > 0
  · simp only [hT, if_true]
  · simp only [hT, if_false]

/-- Away from the singular case, a positive thrust command at `R33 = 0`, the third component of
the result is zero. -/
theorem RollPitchControl_z (c : QuadControl) (accelCmd : V3F) (attitude : Quaternion) (T : ℚ)
    (_hr : T ≤ 0 ∨ attitude.RotationMatrix_IwrtB.get 2 2 ≠ 0) :
    (c.RollPitchControl accelCmd attitude T).z = 0 := by
  rcases lt_or_le 0 T with h | h
  · rw [RollPitchControl_of_pos c accelCmd attitude T h]
    simp
  · have hn : ¬ T > 0 := not_lt.mpr h
    unfold RollPitchControl RollPitchControlTraced
    simp only [hn, if_false]
    rfl

/-- C17, as stated, fails at the singular attitude: for the reference vehicle lying on its side
(`R33 = 0`), a demanded acceleration of `1` northwards and the hover thrust `4.905`, the last
statement of `RollPitchControl` multiplies the vector `(-11.019.., 0, 0)` by `1 / 0`; the call
returns no vector of finite numbers, so not `(p, q, 0)` and not a vector whose third component
is zero. -/
theorem RollPitchControl_singular_attitude :
    sideAttitude.RotationMatrix_IwrtB.get 2 2 = 0
      ∧ (0 : ℚ) < 981 / 200
      ∧ (scenario.RollPitchControlChecked ⟨1, 0, 0⟩ sideAttitude (981 / 200)).1 = none
      ∧ ¬ ∃ v : V3F,
          (scenario.RollPitchControlChecked ⟨1, 0, 0⟩ sideAttitude (981 / 200)).1 = some v
            ∧ v.z = 0 := by
  have h33 : sideAttitude.RotationMatrix_IwrtB.get 2 2 = 0 := rfl
  have hT : (0 : ℚ) < 981 / 200 := by norm_num
  have hnone : (scenario.RollPitchControlChecked ⟨1, 0, 0⟩ sideAttitude (981 / 200)).1
      = none := by
    rw [RollPitchControlChecked_fst, if_pos ⟨hT, h33⟩]
  refine ⟨h33, hT, hnone, ?_⟩
  rintro ⟨v, hv, _⟩
  rw [hnone] at hv
  exact Option.noConfusion hv

/-- C17, amended: for a positive thrust command and an attitude with `R33 ≠ 0`,
`RollPitchControl` returns `(p, q, 0)` with `p = (R21 * bx - R11 * by) / R33` and
`q = (R22 * bx - R12 * by) / R33`, where `(bx, by)` is `kpBank` times the difference of the
commanded tilt, the clamp to `±maxTiltAngle` of `-accelCmd.xy * mass / collThrustCmd`, and the
actual tilt `(R13, R23)`; for every input with `R33 ≠ 0` or a thrust command `≤ 0` the call
returns a vector whose third component is zero; and for `maxTiltAngle ≥ 0` the commanded tilt
lies component-wise in `[-maxTiltAngle, maxTiltAngle]`. -/
theorem RollPitchControl_law_regular (c : QuadControl) (accelCmd : V3F)
    (attitude : Quaternion) (collThrustCmd : ℚ) :
    (0 < collThrustCmd → attitude.RotationMatrix_IwrtB.get 2 2 ≠ 0 →
        (c.RollPitchControlChecked accelCmd attitude collThrustCmd).1
          = some
            ⟨(attitude.RotationMatrix_IwrtB.get 1 0
                  * (c.kpBank
                    * (CONSTRAIN (-(accelCmd.x * c.mass / collThrustCmd)) (-c.maxTiltAngle)
                        c.maxTiltAngle
                      - attitude.RotationMatrix_IwrtB.get 0 2))
                - attitude.RotationMatrix_IwrtB.get 0 0
                  * (c.kpBank
                    * (CONSTRAIN (-(accelCmd.y * c.mass / collThrustCmd)) (-c.maxTiltAngle)
                        c.maxTiltAngle
                      - attitude.RotationMatrix_IwrtB.get 1 2)))
                / attitude.RotationMatrix_IwrtB.get 2 2,
              (attitude.RotationMatrix_IwrtB.get 1 1
                  * (c.kpBank
                    * (CONSTRAIN (-(accelCmd.x * c.mass / collThrustCmd)) (-c.maxTiltAngle)
                        c.maxTiltAngle
                      - attitude.RotationMatrix_IwrtB.get 0 2))
                - attitude.RotationMatrix_IwrtB.get 0 1
                  * (c.kpBank
                    * (CONSTRAIN (-(accelCmd.y * c.mass / collThrustCmd)) (-c.maxTiltAngle)
                        c.maxTiltAngle
                      - attitude.RotationMatrix_IwrtB.get 1 2)))
                / attitude.RotationMatrix_IwrtB.get 2 2,
              0⟩)
      ∧ (collThrustCmd ≤ 0 ∨ attitude.RotationMatrix_IwrtB.get 2 2 ≠ 0 →
          ∃ v : V3F, (c.RollPitchControlChecked accelCmd attitude collThrustCmd).1 = some v
            ∧ v = c.RollPitchControl accelCmd attitude collThrustCmd ∧ v.z = 0)
      ∧ ((c.bCommanded accelCmd collThrustCmd).x
            = CONSTRAIN (-(accelCmd.x * c.mass / collThrustCmd)) (-c.maxTiltAngle) c.maxTiltAngle
          ∧ (c.bCommanded accelCmd collThrustCmd).y
            = CONSTRAIN (-(accelCmd.y * c.mass / collThrustCmd)) (-c.maxTiltAngle)
                c.maxTiltAngle)
      ∧ (0 ≤ c.maxTiltAngle →
          (-c.maxTiltAngle ≤ (c.bCommanded accelCmd collThrustCmd).x
              ∧ (c.bCommanded accelCmd collThrustCmd).x ≤ c.maxTiltAngle)
            ∧ (-c.maxTiltAngle ≤ (c.bCommanded accelCmd collThrustCmd).y
              ∧ (c.bCommanded accelCmd collThrustCmd).y ≤ c.maxTiltAngle)
            ∧ (-c.maxTiltAngle ≤ (c.bCommanded accelCmd collThrustCmd).z
              ∧ (c.bCommanded accelCmd collThrustCmd).z ≤ c.maxTiltAngle)) := by
  have bx : (c.bCommanded accelCmd collThrustCmd).x
      = CONSTRAIN (-(accelCmd.x * c.mass / collThrustCmd)) (-c.maxTiltAngle) c.maxTiltAngle := by
    rw [← accel_div_neg_cAccel]
    rfl
  have bY : (c.bCommanded accelCmd collThrustCmd).y
      = CONSTRAIN (-(accelCmd.y * c.mass / collThrustCmd)) (-c.maxTiltAngle) c.maxTiltAngle := by
    rw [← accel_div_neg_cAccel]
    rfl
  refine ⟨fun h h33 => ?_, fun h => ?_, ⟨bx, bY⟩, fun ht => ?_⟩
  · rw [RollPitchControlChecked_fst, if_neg (fun hc => h33 hc.2),
      RollPitchControl_of_pos c accelCmd attitude collThrustCmd h, bx, bY]
    congr 1
    ext
    · simp only
      ring
    · simp only
      ring
    · simp only
      ring
  · refine ⟨c.RollPitchControl accelCmd attitude collThrustCmd, ?_, rfl,
      RollPitchControl_z c accelCmd attitude collThrustCmd h⟩
    rw [RollPitchControlChecked_fst, if_neg]
    rintro ⟨hT, h33⟩
    rcases h with h | h
    · exact absurd hT (not_lt.mpr h)
    · exact h h33
  · have hb : -c.maxTiltAngle ≤ c.maxTiltAngle := by linarith
    unfold bCommanded V3F.constrain
    exact ⟨⟨CONSTRAIN_ge _ _ _, CONSTRAIN_le _ hb⟩, ⟨CONSTRAIN_ge _ _ _, CONSTRAIN_le _ hb⟩,
      ⟨CONSTRAIN_ge _ _ _, CONSTRAIN_le _ hb⟩⟩

/-- C17, amended, at the reference configuration: for the level vehicle (`R33 = 1`) a demanded
acceleration of `20` northwards on the hover thrust would ask for a tilt of `-2.04`, which is
clamped to `-0.7`; the call returns the rate command `(0, -7, 0)`, and the commanded tilt is
within `±maxTiltAngle`. -/
theorem RollPitchControl_law_regular_witness :
    (0 : ℚ) < 981 / 200 ∧ levelAttitude.RotationMatrix_IwrtB.get 2 2 ≠ 0
      ∧ 0 ≤ scenario.maxTiltAngle
      ∧ (scenario.RollPitchControlChecked ⟨20, 0, 0⟩ levelAttitude (981 / 200)).1
          = some ⟨0, -7, 0⟩
      ∧ (-scenario.maxTiltAngle ≤ (scenario.bCommanded ⟨20, 0, 0⟩ (981 / 200)).x
        ∧ (scenario.bCommanded ⟨20, 0, 0⟩ (981 / 200)).x ≤ scenario.maxTiltAngle) := by
  have hT : (0 : ℚ) < 981 / 200 := by norm_num
  have h33 : levelAttitude.RotationMatrix_IwrtB.get 2 2 ≠ 0 := by
    have e : levelAttitude.RotationMatrix_IwrtB.get 2 2 = 1 := rfl
    rw [e]
    norm_num
  have ht : 0 ≤ scenario.maxTiltAngle := by norm_num [scenario]
  have h := RollPitchControl_law_regular scenario ⟨20, 0, 0⟩ levelAttitude (981 / 200)
  refine ⟨hT, h33, ht, ?_, (h.2.2.2 ht).1⟩
  rw [h.1 hT h33]
  have r10 : levelAttitude.RotationMatrix_IwrtB.get 1 0 = 0 := rfl
  have r00 : levelAttitude.RotationMatrix_IwrtB.get 0 0 = 1 := rfl
  have r11 : levelAttitude.RotationMatrix_IwrtB.get 1 1 = 1 := rfl
  have r01 : levelAttitude.RotationMatrix_IwrtB.get 0 1 = 0 := rfl
  have r02 : levelAttitude.RotationMatrix_IwrtB.get 0 2 = 0 := rfl
  have r12 : levelAttitude.RotationMatrix_IwrtB.get 1 2 = 0 := rfl
  have r22 : levelAttitude.RotationMatrix_IwrtB.get 2 2 = 1 := rfl
  have cx : CONSTRAIN (-(20 * scenario.mass / (981 / 200))) (-scenario.maxTiltAngle)
      scenario.maxTiltAngle = -(7 / 10) := by
    have hm : scenario.mass = 1 / 2 := rfl
    have hmt : scenario.maxTiltAngle = 7 / 10 := rfl
    rw [hm, hmt]
    exact CONSTRAIN_of_le_low (by norm_num) (by norm_num)
  have cy : CONSTRAIN (-(0 * scenario.mass / (981 / 200))) (-scenario.maxTiltAngle)
      scenario.maxTiltAngle = 0 := by
    have hz : -(0 * scenario.mass / (981 / 200)) = 0 := by norm_num
    rw [hz]
    exact CONSTRAIN_zero ht
  have hk : scenario.kpBank = 10 := rfl
  simp only [r10, r00, r11, r01, r02, r12, r22, cx, cy, hk]
  norm_num

/-! ## Claims on the mixer's inverse, the thrust margin and the single wrap -/

/-- The four unclamped motor thrusts. -/
theorem motorThrustsRaw_val (c : QuadControl) (T : ℚ) (M : V3F) :
    c.motorThrustsRaw T M 0
        = (M.x / (c.L / c.sqrtf2) + M.y / (c.L / c.sqrtf2) + -M.z / c.kappa + T) / 4
      ∧ c.motorThrustsRaw T M 1
        = (-(M.x / (c.L / c.sqrtf2)) + M.y / (c.L / c.sqrtf2) - -M.z / c.kappa + T) / 4
      ∧ c.motorThrustsRaw T M 2
        = (M.x / (c.L / c.sqrtf2) - M.y / (c.L / c.sqrtf2) - -M.z / c.kappa + T) / 4
      ∧ c.motorThrustsRaw T M 3
        = (-(M.x / (c.L / c.sqrtf2)) - M.y / (c.L / c.sqrtf2) + -M.z / c.kappa + T) / 4 :=
  ⟨rfl, rfl, rfl, rfl⟩

/-- C18: when no clamp is active the motor mix inverts the force model of the X quadrotor: for
`L ≠ 0`, `kappa ≠ 0` (and the nonzero value of `sqrtf(2.f)`) and every thrust and moment command
whose four unclamped values lie in `[minMotorThrust, maxMotorThrust]`, the outputs `f1..f4`
satisfy `f1 + f2 + f3 + f4 = c`, `(L / sqrtf 2) * (f1 - f2 + f3 - f4) = Mx`,
`(L / sqrtf 2) * (f1 + f2 - f3 - f4) = My` and `-kappa * (f1 - f2 - f3 + f4) = Mz`. -/
theorem GenerateMotorCommands_inverts_force_model (c : QuadControl) (collThrustCmd : ℚ)
    (momentCmd : V3F) (hL : c.L ≠ 0) (hk : c.kappa ≠ 0) (hs : c.sqrtf2 ≠ 0)
    (hin : ∀ i : Fin 4, c.minMotorThrust ≤ c.motorThrustsRaw collThrustCmd momentCmd i
      ∧ c.motorThrustsRaw collThrustCmd momentCmd i ≤ c.maxMotorThrust) :
    (c.GenerateMotorCommands collThrustCmd momentCmd).1.desiredThrustsN 0
          + (c.GenerateMotorCommands collThrustCmd momentCmd).1.desiredThrustsN 1
          + (c.GenerateMotorCommands collThrustCmd momentCmd).1.desiredThrustsN 2
          + (c.GenerateMotorCommands collThrustCmd momentCmd).1.desiredThrustsN 3
        = collThrustCmd
      ∧ c.L / c.sqrtf2
          * ((c.GenerateMotorCommands collThrustCmd momentCmd).1.desiredThrustsN 0
            - (c.GenerateMotorCommands collThrustCmd momentCmd).1.desiredThrustsN 1
            + (c.GenerateMotorCommands collThrustCmd momentCmd).1.desiredThrustsN 2
            - (c.GenerateMotorCommands collThrustCmd momentCmd).1.desiredThrustsN 3)
        = momentCmd.x
      ∧ c.L / c.sqrtf2
          * ((c.GenerateMotorCommands collThrustCmd momentCmd).1.desiredThrustsN 0
            + (c.GenerateMotorCommands collThrustCmd momentCmd).1.desiredThrustsN 1
            - (c.GenerateMotorCommands collThrustCmd momentCmd).1.desiredThrustsN 2
            - (c.GenerateMotorCommands collThrustCmd momentCmd).1.desiredThrustsN 3)
        = momentCmd.y
      ∧ -c.kappa
          * ((c.GenerateMotorCommands collThrustCmd momentCmd).1.desiredThrustsN 0
            - (c.GenerateMotorCommands collThrustCmd momentCmd).1.desiredThrustsN 1
            - (c.GenerateMotorCommands collThrustCmd momentCmd).1.desiredThrustsN 2
            + (c.GenerateMotorCommands collThrustCmd momentCmd).1.desiredThrustsN 3)
        = momentCmd.z := by
  have hl : c.L / c.sqrtf2 ≠ 0 := div_ne_zero hL hs
  have hf : ∀ i : Fin 4, (c.GenerateMotorCommands collThrustCmd momentCmd).1.desiredThrustsN i
      = c.motorThrustsRaw collThrustCmd momentCmd i := by
    intro i
    rw [GenerateMotorCommands_fst, CONSTRAIN_of_mem (hin i).1 (hin i).2]
  obtain ⟨e0, e1, e2, e3⟩ := c.motorThrustsRaw_val collThrustCmd momentCmd
  simp only [hf, e0, e1, e2, e3]
  generalize c.L / c.sqrtf2 = l at hl
  refine ⟨by ring, ?_, ?_, ?_⟩
  · field_simp
    ring
  · field_simp
    ring
  · field_simp
    ring

/-- C18, at the reference configuration: the thrust `4` with the roll moment `0.017` is mixed
without clamping; the four thrusts add up to the collective thrust and give back the roll
moment. -/
theorem GenerateMotorCommands_inverts_force_model_witness :
    scenario.L ≠ 0 ∧ scenario.kappa ≠ 0 ∧ scenario.sqrtf2 ≠ 0
      ∧ (scenario.GenerateMotorCommands 4 ⟨17 / 1000, 0, 0⟩).1.desiredThrustsN 0
          + (scenario.GenerateMotorCommands 4 ⟨17 / 1000, 0, 0⟩).1.desiredThrustsN 1
          + (scenario.GenerateMotorCommands 4 ⟨17 / 1000, 0, 0⟩).1.desiredThrustsN 2
          + (scenario.GenerateMotorCommands 4 ⟨17 / 1000, 0, 0⟩).1.desiredThrustsN 3 = 4
      ∧ scenario.L / scenario.sqrtf2
          * ((scenario.GenerateMotorCommands 4 ⟨17 / 1000, 0, 0⟩).1.desiredThrustsN 0
            - (scenario.GenerateMotorCommands 4 ⟨17 / 1000, 0, 0⟩).1.desiredThrustsN 1
            + (scenario.GenerateMotorCommands 4 ⟨17 / 1000, 0, 0⟩).1.desiredThrustsN 2
            - (scenario.GenerateMotorCommands 4 ⟨17 / 1000, 0, 0⟩).1.desiredThrustsN 3)
        = 17 / 1000 := by
  have h := GenerateMotorCommands_inverts_force_model scenario 4 ⟨17 / 1000, 0, 0⟩
    (by norm_num [scenario]) (by norm_num [scenario]) (by norm_num [scenario])
    (fun i => by
      fin_cases i <;> norm_num [motorThrustsRaw, scenario])
  exact ⟨by norm_num [scenario], by norm_num [scenario], by norm_num [scenario], h.1, h.2.1⟩

/-- A positive thrust command takes `RollPitchControl` through all four of its divisions. -/
theorem RollPitchControlTraced_of_pos (c : QuadControl) (accelCmd : V3F)
    (attitude : Quaternion) (T : ℚ) (h : 0 < T) :
    (c.RollPitchControlTraced accelCmd attitude T).2
      = [DivSite.thrustByMass, DivSite.accelXByCAccel, DivSite.accelYByCAccel,
          DivSite.oneByR33] := by
  have hT : T > 0 := h
  unfold RollPitchControlTraced
  simp only [hT, if_true]

/-- C19: for `0 ≤ minMotorThrust < maxMotorThrust` the margin-clamped collective thrust that
`RunControl` passes to `RollPitchControl` is at least
`4 * (minMotorThrust + 0.1 * (maxMotorThrust - minMotorThrust))`, which is positive; so the
attitude stage never takes its branch of a non-positive thrust there: whatever its controller,
acceleration and attitude arguments, the call goes through the divisions of the positive
branch. -/
theorem RunControl_thrust_positive (c : QuadControl) (pt : TrajectoryPoint) (dt : ℚ)
    (h0 : 0 ≤ c.minMotorThrust) (h1 : c.minMotorThrust < c.maxMotorThrust) :
    4 * (c.minMotorThrust + 1 / 10 * (c.maxMotorThrust - c.minMotorThrust))
        ≤ (c.runThrust pt dt).1
      ∧ 0 < 4 * (c.minMotorThrust + 1 / 10 * (c.maxMotorThrust - c.minMotorThrust))
      ∧ 0 < (c.runThrust pt dt).1
      ∧ ∀ (c' : QuadControl) (accelCmd : V3F) (attitude : Quaternion),
          (c'.RollPitchControlTraced accelCmd attitude (c.runThrust pt dt).1).2
              = [DivSite.thrustByMass, DivSite.accelXByCAccel, DivSite.accelYByCAccel,
                  DivSite.oneByR33]
            ∧ (c'.RollPitchControlTraced accelCmd attitude (c.runThrust pt dt).1).2
              ≠ [DivSite.thrustByMass] := by
  have hge : 4 * (c.minMotorThrust + 1 / 10 * (c.maxMotorThrust - c.minMotorThrust))
      ≤ (c.runThrust pt dt).1 := by
    rw [runThrust_fst_margin]
    exact CONSTRAIN_ge _ _ _
  have hpos : 0 < 4 * (c.minMotorThrust + 1 / 10 * (c.maxMotorThrust - c.minMotorThrust)) := by
    linarith
  have hT : 0 < (c.runThrust pt dt).1 := lt_of_lt_of_le hpos hge
  refine ⟨hge, hpos, hT, fun c' a att => ?_⟩
  rw [RollPitchControlTraced_of_pos c' a att _ hT]
  exact ⟨rfl, by decide⟩

/-- C19, at the reference configuration: the thrust of a tick that demands a descent of 100 m,
which the altitude stage saturates at its lower bound, is still positive after the margin
clamp. -/
theorem RunControl_thrust_positive_witness :
    0 ≤ scenario.minMotorThrust ∧ scenario.minMotorThrust < scenario.maxMotorThrust
      ∧ 0 < (scenario.runThrust { restPoint with position := ⟨0, 0, 100⟩ } (1 / 100)).1 :=
  ⟨by norm_num [scenario], by norm_num [scenario],
    (RunControl_thrust_positive scenario { restPoint with position := ⟨0, 0, 100⟩ } (1 / 100)
      (by norm_num [scenario]) (by norm_num [scenario])).2.2.1⟩

/-- One wrap step brings an unwrapped error of magnitude at most `3 * F_PI` into
`[-F_PI, F_PI]`. -/
theorem yawError_abs_le_of_unwrapped (c : QuadControl) (yawCmd yaw : ℚ)
    (h1 : -(3 * c.F_PI) ≤ fmodf yawCmd (2 * c.F_PI) - yaw)
    (h2 : fmodf yawCmd (2 * c.F_PI) - yaw ≤ 3 * c.F_PI) :
    |c.yawError yawCmd yaw| ≤ c.F_PI := by
  rw [yawError_eq, abs_le]
  split_ifs with ha hb
  · constructor <;> linarith
  · constructor <;> linarith
  · exact ⟨not_lt.mp hb, not_lt.mp ha⟩

/-- C20: when the current yaw is a normalised heading, in `[-F_PI, F_PI]`, the single wrap step
suffices: for every desired yaw the error that `YawControl` multiplies by `kpYaw` lies in
`[-F_PI, F_PI]`, and the returned yaw rate has magnitude at most `|kpYaw| * F_PI`. -/
theorem yawError_within_range_of_normalised_yaw (c : QuadControl) (yawCmd yaw : ℚ)
    (hpi : 0 < c.F_PI) (h1 : -c.F_PI ≤ yaw) (h2 : yaw ≤ c.F_PI) :
    (-c.F_PI ≤ c.yawError yawCmd yaw ∧ c.yawError yawCmd yaw ≤ c.F_PI)
      ∧ |c.YawControl yawCmd yaw| ≤ |c.kpYaw| * c.F_PI := by
  have h2pi : 0 < 2 * c.F_PI := by linarith
  obtain ⟨f1, f2⟩ := fmodf_bounds yawCmd h2pi
  have hab : |c.yawError yawCmd yaw| ≤ c.F_PI :=
    yawError_abs_le_of_unwrapped c yawCmd yaw (by linarith) (by linarith)
  refine ⟨abs_le.mp hab, ?_⟩
  rw [YawControl_eq, abs_mul]
  exact mul_le_mul_of_nonneg_left hab (abs_nonneg _)

/-- C20, at the reference configuration: a desired yaw of 100 rad against a current yaw of
3 rad gives an error within `[-F_PI, F_PI]`. -/
theorem yawError_within_range_of_normalised_yaw_witness :
    0 < scenario.F_PI ∧ -scenario.F_PI ≤ 3 ∧ (3 : ℚ) ≤ scenario.F_PI
      ∧ (-scenario.F_PI ≤ scenario.yawError 100 3 ∧ scenario.yawError 100 3 ≤ scenario.F_PI) :=
  ⟨by norm_num [scenario_F_PI], by norm_num [scenario_F_PI], by norm_num [scenario_F_PI],
    (yawError_within_range_of_normalised_yaw scenario 100 3 (by norm_num [scenario_F_PI])
      (by norm_num [scenario_F_PI]) (by norm_num [scenario_F_PI])).1⟩

end QuadControl

end FCND
